import Mathlib

/-
Verification development for the invoice-extraction pipeline in src/app.py
(repository invoice-pdf-to-excel).  The Python source is shallowly embedded:
regular expressions become explicit decidable matchers on character lists,
floats become exact rationals, exceptions become Except values, and the
Streamlit / pdfplumber collaborators are modelled by the data they hand to
the core (page texts and tables).
-/

namespace InvoiceApp

/-! ## Basic string helpers mirroring Python primitives -/

/-- Python whitespace class for str.strip and the regex class backslash-s. -/
def pyIsSpace (c : Char) : Bool :=
  c = ' ' || c = '\t' || c = '\n' || c = '\r' || c = '\x0b' || c = '\x0c'

/-- Python str.strip with no arguments (strip surrounding whitespace). -/
def pyStrip (s : String) : String :=
  String.mk (((s.toList.dropWhile pyIsSpace).reverse.dropWhile pyIsSpace).reverse)

/-- Auxiliary whitespace splitter: maximal non-whitespace runs of a line. -/
def splitWsAux : List Char → List Char → List String
  | [], acc => if acc.isEmpty then [] else [String.mk acc.reverse]
  | c :: cs, acc =>
    if pyIsSpace c then
      if acc.isEmpty then splitWsAux cs [] else String.mk acc.reverse :: splitWsAux cs []
    else splitWsAux cs (c :: acc)

/-- Tokens of a line, as produced by the source filtering re.split on whitespace runs. -/
def splitWs (s : String) : List String := splitWsAux s.toList []

/-- Word character for the regex class backslash-w (ASCII inputs). -/
def isWordChar (c : Char) : Bool := c.isAlphanum || c = '_'

/-- Auxiliary splitter for re.split on runs of non-word characters: the flag
records whether a separator run is being skipped.  Python keeps empty chunks
at the borders, which this reproduces. -/
def splitNonWordGo : List Char → List Char → Bool → List String
  | [], acc, _ => [String.mk acc.reverse]
  | c :: cs, acc, skipping =>
    if isWordChar c then splitNonWordGo cs (c :: acc) false
    else if skipping then splitNonWordGo cs acc true
    else String.mk acc.reverse :: splitNonWordGo cs [] true

/-- Embedding of re.split over the non-word-run separator used for line words. -/
def splitNonWord (s : String) : List String := splitNonWordGo s.toList [] false

/-- Python substring membership (the in operator on strings). -/
def containsSubL (pat : List Char) : List Char → Bool
  | [] => pat.isEmpty
  | c :: cs => pat.isPrefixOf (c :: cs) || containsSubL pat cs

/-- Python substring membership on strings. -/
def containsSub (s pat : String) : Bool := containsSubL pat.toList s.toList

/-- Python str.find with a start offset, returning none for -1. -/
def pyFindAux (pat : List Char) : List Char → Nat → Option Nat
  | [], i => if pat.isEmpty then some i else none
  | c :: cs, i => if pat.isPrefixOf (c :: cs) then some i else pyFindAux pat cs (i + 1)

/-- Python text.find(pat, start). -/
def pyFind (text pat : String) (start : Nat) : Option Nat :=
  (pyFindAux pat.toList (text.toList.drop start) 0).map (fun j => start + j)

/-- Python str.zfill 2 used by the date normalizer. -/
def zfill2 (s : String) : String :=
  if s.length < 2 then String.mk (List.replicate (2 - s.length) '0') ++ s else s

/-- Numeric value of an all-digit string (Python int on such strings). -/
def digitsToNat (s : String) : Nat :=
  s.toList.foldl (fun n c => n * 10 + (c.toNat - 48)) 0

/-- Python re.sub removing every non-digit character. -/
def keepDigits (s : String) : String := String.mk (s.toList.filter Char.isDigit)

/-- Python re.sub keeping only digits and the decimal point. -/
def keepDigitsDot (s : String) : String :=
  String.mk (s.toList.filter (fun c => c.isDigit || c = '.'))

/-- Python re.sub keeping only digits, commas and the decimal point. -/
def keepDigitsCommaDot (s : String) : String :=
  String.mk (s.toList.filter (fun c => c.isDigit || c = ',' || c = '.'))

/-- Python re.sub removing dashes and whitespace. -/
def removeDashWs (s : String) : String :=
  String.mk (s.toList.filter (fun c => ¬ (c = '-' || pyIsSpace c)))

/-- Python str.replace removing commas. -/
def removeCommas (s : String) : String :=
  String.mk (s.toList.filter (fun c => ¬ c = ','))

/-- Python str.isupper: at least one cased character and no lowercase one (ASCII). -/
def pyIsUpper (s : String) : Bool :=
  s.toList.any Char.isAlpha && s.toList.all (fun c => ¬ c.isAlpha || c.isUpper)

/-- Python str.isdigit on ASCII strings: nonempty and all digits. -/
def pyIsDigitStr (s : String) : Bool :=
  ¬ s.toList.isEmpty && s.toList.all Char.isDigit

/-- Lowercasing a string character by character (Python str.lower on ASCII). -/
def strLower (s : String) : String := String.mk (s.toList.map Char.toLower)

/-- Uppercasing a string character by character (Python str.upper on ASCII). -/
def strUpper (s : String) : String := String.mk (s.toList.map Char.toUpper)

/-- Splitter on one separator character, keeping empty chunks. -/
def splitCharList (sep : Char) : List Char → List Char → List (List Char)
  | [], acc => [acc.reverse]
  | c :: cs, acc =>
    if c = sep then acc.reverse :: splitCharList sep cs []
    else splitCharList sep cs (c :: acc)

/-- Python str.split on the newline separator. -/
def pySplitLines (s : String) : List String :=
  (splitCharList '\n' s.toList []).map String.mk

/-- Python str.join. -/
def joinWith (sep : String) : List String → String
  | [] => ""
  | [x] => x
  | x :: xs => x ++ sep ++ joinWith sep xs

/-- Exact nonnegative decimal value mant divided by ten to the scale; this
models the Python float produced from the digit-and-dot strings of the
pipeline exactly (those values are small enough to be exact floats for the
comparisons and renderings the source performs). -/
structure Dec where
  mant : Nat
  scale : Nat
deriving DecidableEq, Repr

/-- Comparison of a decimal with a natural number: value less than n. -/
def Dec.ltNat (d : Dec) (n : Nat) : Bool := d.mant < n * 10 ^ d.scale

/-- Comparison of a decimal with a natural number: value at least n. -/
def Dec.geNat (d : Dec) (n : Nat) : Bool := d.mant ≥ n * 10 ^ d.scale

/-- Comparison of a decimal with a natural number: value greater than n. -/
def Dec.gtNat (d : Dec) (n : Nat) : Bool := d.mant > n * 10 ^ d.scale

/-- Comparison of two decimals: strictly greater value. -/
def Dec.gtDec (a b : Dec) : Bool := a.mant * 10 ^ b.scale > b.mant * 10 ^ a.scale

/-- Python float on strings made only of digits and dots, as an exact decimal.
Returns none where Python float raises ValueError. -/
def parseDecimal? (s : String) : Option Dec :=
  match splitCharList '.' s.toList [] with
  | [ip] => if ip.isEmpty then none else some ⟨digitsToNat (String.mk ip), 0⟩
  | [ip, fp] =>
    if ip.isEmpty && fp.isEmpty then none
    else some ⟨digitsToNat (String.mk ip) * 10 ^ fp.length + digitsToNat (String.mk fp),
      fp.length⟩
  | _ => none

/-- Rendering of a decimal the way Python repr renders the floats the
pipeline produces (integer values get a trailing .0, other values keep
their significant fractional digits). -/
def decimalRepr (d : Dec) : String :=
  let p := 10 ^ d.scale
  let ip := d.mant / p
  let fr := d.mant % p
  if fr = 0 then toString ip ++ ".0"
  else
    let digits := (toString fr).toList
    let padded := List.replicate (d.scale - digits.length) '0' ++ digits
    toString ip ++ "." ++ String.mk (padded.reverse.dropWhile (fun c => c = '0')).reverse

/-! ## Token and tokenizer -/

/-- A single token carrying its text, position, and surrounding context
(class Token in the source; font_size is carried but never set by tokenize). -/
structure Token where
  text : String
  pos : Nat
  line_idx : Nat
  line : String
  prev_tokens : List String
  next_tokens : List String
  font_size : Option Nat := none
  is_bold : Bool := false
deriving DecidableEq, Repr

/-- Dash characters recognized by the glue-splitting regexes (hyphen, en dash, em dash). -/
def isDashChar (c : Char) : Bool := c = '-' || c = '–' || c = '—'

/-- Pattern 1 of _split_glued_patterns: lazy scan for the first position whose
character is a letter or period, followed by a dash run and then an
alphanumeric character.  Returns the two capture groups. -/
def glueP1Split : List Char → List Char → Option (List Char × List Char)
  | [], _ => none
  | c :: rest, acc =>
    if c.isAlpha || c = '.' then
      let run := rest.takeWhile isDashChar
      let after := rest.drop run.length
      if run.length ≥ 1 && (match after with | a :: _ => a.isAlphanum | [] => false) then
        some ((c :: acc).reverse, after)
      else glueP1Split rest (c :: acc)
    else glueP1Split rest (c :: acc)

/-- Pattern 2 of _split_glued_patterns: label, a single colon, then a value
starting with an alphanumeric character. -/
def glueP2Split : List Char → List Char → Option (List Char × List Char)
  | [], _ => none
  | c :: rest, acc =>
    if c.isAlpha || c = '.' then
      match rest with
      | ':' :: a :: t =>
        if a.isAlphanum then some ((c :: acc).reverse, a :: t)
        else glueP2Split rest (c :: acc)
      | _ => glueP2Split rest (c :: acc)
    else glueP2Split rest (c :: acc)

/-- Pattern 3 of _split_glued_patterns: letters, a slash, then the remainder,
guarded against email addresses and URLs. -/
def glueP3Split (l : List Char) : Option (List Char × List Char) :=
  if l.contains '/' && !(l.contains '@') && !(containsSubL "://".toList l) then
    let letters := l.takeWhile Char.isAlpha
    match l.drop letters.length with
    | '/' :: rest => if letters.length ≥ 1 && rest.length ≥ 1 then some (letters, rest) else none
    | _ => none
  else none

/-- Pattern 4 of _split_glued_patterns: a label ending in a letter or period
followed only by a trailing run of colons and dashes. -/
def glueP4Label (l : List Char) : Option (List Char) :=
  let rev := l.reverse
  let run := rev.takeWhile (fun c => c = ':' || isDashChar c)
  if run.length ≥ 1 then
    match rev.drop run.length with
    | c :: rest => if c.isAlpha || c = '.' then some ((c :: rest).reverse) else none
    | [] => none
  else none

/-- Fallthrough of _split_glued_patterns after patterns 1 to 3 failed. -/
def gluePattern4 (token_text : String) : List String :=
  match glueP4Label token_text.toList with
  | some g =>
    let label := pyStrip (String.mk g)
    if label ≠ "" then [label] else [token_text]
  | none => [token_text]

/-- Fallthrough of _split_glued_patterns after patterns 1 and 2 failed. -/
def gluePattern3 (token_text : String) : List String :=
  match glueP3Split token_text.toList with
  | some (g1, g2) =>
    let label := pyStrip (String.mk g1)
    let value := pyStrip (String.mk g2)
    if label ≠ "" && value ≠ "" && label.length > 1 then [label, value]
    else gluePattern4 token_text
  | none => gluePattern4 token_text

/-- Fallthrough of _split_glued_patterns after pattern 1 failed to return. -/
def gluePattern2 (token_text : String) : List String :=
  match glueP2Split token_text.toList [] with
  | some (g1, g2) =>
    let label := pyStrip (String.mk g1)
    let value := pyStrip (String.mk g2)
    if label ≠ "" && value ≠ "" then [label, value]
    else gluePattern3 token_text
  | none => gluePattern3 token_text

/-- Embedding of _split_glued_patterns from the source: split label-value
tokens glued by dashes, colons or slashes, preserving protected shapes. -/
def _split_glued_patterns (token_text : String) : List String :=
  match glueP1Split token_text.toList [] with
  | some (g1, g2) =>
    let label := pyStrip (String.mk g1)
    let value := pyStrip (String.mk g2)
    if label ≠ "" && value ≠ "" then [label, value]
    else if label ≠ "" then [label]
    else gluePattern2 token_text
  | none => gluePattern2 token_text

/-- Embedding of tokenize from the source: whitespace split, glue expansion,
absolute offsets found by forward search, and same-line context windows. -/
def tokenize (text : String) (context_window : Nat := 6) : List Token :=
  let lines := pySplitLines text
  let step := fun (acc : List Token × Nat × Nat) (line : String) =>
    let toks := acc.1
    let line_idx := acc.2.1
    let char_offset := acc.2.2
    if pyStrip line = "" then (toks, line_idx + 1, char_offset + line.length + 1)
    else
      let ltt := (splitWs line).flatMap _split_glued_patterns
      let inner := fun (acc2 : List Token × Nat) (p : Nat × String) =>
        let ts := acc2.1
        let off := acc2.2
        let tok_idx := p.1
        let tok_text := p.2
        let pos := (pyFind text tok_text off).getD off
        let prev := (ltt.take tok_idx).drop (tok_idx - context_window)
        let nxt := (ltt.drop (tok_idx + 1)).take context_window
        let isb := pyIsUpper tok_text && tok_text.length > 2
        (ts ++ [⟨tok_text, pos, line_idx, line, prev, nxt, none, isb⟩], pos + tok_text.length)
      let res := ltt.enum.foldl inner (toks, char_offset)
      (res.1, line_idx + 1, res.2 + 1)
  (lines.foldl step ([], 0, 0)).1

/-! ## Entity registry: format matchers for ENTITY_DEFS

Each Python re pattern becomes a decidable matcher on the character list.
The IGNORECASE flag is reflected by accepting both cases; patterns without
the flag keep the exact case classes of the source. -/

/-- Convenience: every character is a digit. -/
def allDigits (l : List Char) : Bool := l.all Char.isDigit

/-- Convenience: every character is an ASCII letter. -/
def allAlpha (l : List Char) : Bool := l.all Char.isAlpha

/-- Convenience: every character is an ASCII letter or digit. -/
def allAlphanum (l : List Char) : Bool := l.all Char.isAlphanum

/-- Character at an index with a space default (only used under length guards). -/
def charAt (l : List Char) (i : Nat) : Char := l.getD i ' '

/-- IFSC pattern 1 with IGNORECASE: four letters, a zero, six alphanumerics. -/
def ifscFmt1 (l : List Char) : Bool :=
  l.length = 11 && allAlpha (l.take 4) && charAt l 4 = '0' && allAlphanum (l.drop 5)

/-- IFSC pattern 2 with IGNORECASE: four letters then seven digits. -/
def ifscFmt2 (l : List Char) : Bool :=
  l.length = 11 && allAlpha (l.take 4) && allDigits (l.drop 4)

/-- PAN pattern 1 with IGNORECASE: five letters, four digits, one letter. -/
def panFmt1 (l : List Char) : Bool :=
  l.length = 10 && allAlpha (l.take 5) && allDigits ((l.drop 5).take 4) && allAlpha (l.drop 9)

/-- PAN pattern 2 with IGNORECASE: the strict holder-category variant. -/
def panFmt2 (l : List Char) : Bool :=
  l.length = 10 && allAlpha (l.take 3) &&
  "ABCFGHLJPT".toList.contains (charAt l 3).toUpper &&
  (charAt l 4).isAlpha && allDigits ((l.drop 5).take 4) && (charAt l 9).isAlpha

/-- Character class of the 13th GST position: digit 1 to 9 or a letter. -/
def gstEntityCode (c : Char) : Bool := c.isAlpha || ('1' ≤ c && c ≤ '9')

/-- GST pattern 1 with IGNORECASE. -/
def gstFmt1 (l : List Char) : Bool :=
  l.length = 15 && allDigits (l.take 2) && allAlpha ((l.drop 2).take 5) &&
  allDigits ((l.drop 7).take 4) && (charAt l 11).isAlpha && gstEntityCode (charAt l 12) &&
  (charAt l 13).toUpper = 'Z' && (charAt l 14).isAlphanum

/-- GST pattern 2 with IGNORECASE: the strict holder-category variant. -/
def gstFmt2 (l : List Char) : Bool :=
  l.length = 15 && allDigits (l.take 2) && allAlpha ((l.drop 2).take 3) &&
  "ABCFGHLJPT".toList.contains (charAt l 5).toUpper && (charAt l 6).isAlpha &&
  allDigits ((l.drop 7).take 4) && (charAt l 11).isAlpha && gstEntityCode (charAt l 12) &&
  (charAt l 13).toUpper = 'Z' && (charAt l 14).isAlphanum

/-- Account pattern 1: nine to eighteen digits. -/
def accFmt1 (l : List Char) : Bool :=
  allDigits l && 9 ≤ l.length && l.length ≤ 18

/-- Account pattern 2 (case sensitive): two uppercase letters then 7 to 16 digits. -/
def accFmt2 (l : List Char) : Bool :=
  match l with
  | a :: b :: rest =>
    a.isUpper && b.isUpper && allDigits rest && 7 ≤ rest.length && rest.length ≤ 16
  | _ => false

/-- Separator class of the formatted account pattern: dash or whitespace. -/
def sepDashWs (c : Char) : Bool := c = '-' || pyIsSpace c

/-- Account pattern 3: 4 digits, optional separator, 4 digits, optional
separator, then 4 to 10 digits. -/
def accFmt3 (l : List Char) : Bool :=
  let d1 := l.take 4
  if !(d1.length = 4 && allDigits d1) then false else
  let r1 := l.drop 4
  let r2 := match r1 with
    | c :: rest => if sepDashWs c then rest else r1
    | [] => r1
  let d2 := r2.take 4
  if !(d2.length = 4 && allDigits d2) then false else
  let r3 := r2.drop 4
  let r4 := match r3 with
    | c :: rest => if sepDashWs c then rest else r3
    | [] => r3
  allDigits r4 && 4 ≤ r4.length && r4.length ≤ 10

/-- Invoice pattern 1: two to seven digits. -/
def invFmt1 (l : List Char) : Bool := allDigits l && 2 ≤ l.length && l.length ≤ 7

/-- Invoice pattern 2 with IGNORECASE: one to four letters, optional dash or
slash, then two to seven digits. -/
def invFmt2 (l : List Char) : Bool :=
  let letters := l.takeWhile Char.isAlpha
  if !(1 ≤ letters.length && letters.length ≤ 4) then false else
  let rest := l.drop letters.length
  let rest2 := match rest with
    | c :: t => if c = '-' || c = '/' then t else rest
    | [] => rest
  allDigits rest2 && 2 ≤ rest2.length && rest2.length ≤ 7

/-- Invoice pattern 3: date-style invoice numbers with dash or slash groups. -/
def invFmt3 (l : List Char) : Bool :=
  let r1 := l.takeWhile Char.isDigit
  if !(2 ≤ r1.length && r1.length ≤ 4) then false else
  match l.drop r1.length with
  | c :: rest =>
    if !(c = '-' || c = '/') then false else
    let r2 := rest.takeWhile Char.isDigit
    match rest.drop r2.length with
    | [] => 2 ≤ r2.length && r2.length ≤ 8
    | c2 :: rest2 =>
      (c2 = '-' || c2 = '/') && 2 ≤ r2.length && r2.length ≤ 4 &&
      allDigits rest2 && rest2.length ≤ 4
  | [] => false

/-- Invoice pattern 4 with IGNORECASE: INV, optional dash or slash, digits. -/
def invFmt4 (l : List Char) : Bool :=
  match l.map Char.toLower with
  | 'i' :: 'n' :: 'v' :: rest =>
    let rest2 := match rest with
      | c :: t => if c = '-' || c = '/' then t else rest
      | [] => rest
    allDigits rest2 && 2 ≤ rest2.length && rest2.length ≤ 7
  | _ => false

/-- Invoice pattern 5 with IGNORECASE: 4 to 12 alphanumerics. -/
def invFmt5 (l : List Char) : Bool := allAlphanum l && 4 ≤ l.length && l.length ≤ 12

/-- Tail of the amount core group: optional decimal point with 1 or 2 digits. -/
def amtDecTail : List Char → Bool
  | [] => true
  | '.' :: r => allDigits r && 1 ≤ r.length && r.length ≤ 2
  | _ => false

/-- One or more comma-separated thousands groups followed by the decimal tail. -/
def amtCommaPlus : List Char → Bool
  | ',' :: a :: b :: c :: rest =>
    a.isDigit && b.isDigit && c.isDigit && (amtCommaPlus rest || amtDecTail rest)
  | _ => false

/-- Core amount group: comma-grouped integer with optional decimals, or a
plain integer with mandatory decimals. -/
def amountCore (l : List Char) : Bool :=
  let d := l.takeWhile Char.isDigit
  (1 ≤ d.length && d.length ≤ 3 && amtCommaPlus (l.drop d.length)) ||
  (1 ≤ d.length &&
    (match l.drop d.length with
     | '.' :: r => allDigits r && 1 ≤ r.length && r.length ≤ 2
     | _ => false))

/-- Amount pattern 1: the bare core group. -/
def amtFmt1 (l : List Char) : Bool := amountCore l

/-- Amount pattern 2: optional rupee sign, optional whitespace, core group. -/
def amtFmt2 (l : List Char) : Bool :=
  let l1 := match l with
    | '₹' :: r => r
    | _ => l
  amountCore (l1.dropWhile pyIsSpace)

/-- Amount pattern 3 with IGNORECASE: optional Rs or INR marker, optional
whitespace, core group. -/
def amtFmt3 (l : List Char) : Bool :=
  let low := l.map Char.toLower
  let k : Nat :=
    match low with
    | 'r' :: 's' :: '.' :: _ => 3
    | 'r' :: 's' :: _ => 2
    | 'i' :: 'n' :: 'r' :: _ => 3
    | _ => 0
  amountCore ((l.drop k).dropWhile pyIsSpace)

/-- Amount pattern 4: four or more digits. -/
def amtFmt4 (l : List Char) : Bool := allDigits l && 4 ≤ l.length

/-- Date separator class: dash, period or slash. -/
def dateSep (c : Char) : Bool := c = '-' || c = '.' || c = '/'

/-- Tail of date pattern 1: optional whitespace, separator, then the year. -/
def dateFmt1Tail (l : List Char) : Bool :=
  match l.dropWhile pyIsSpace with
  | c :: rest => dateSep c && allDigits rest && 2 ≤ rest.length && rest.length ≤ 4
  | [] => false

/-- Date pattern 1: day, separator, three-letter or numeric month with
optional inner whitespace, separator, year. -/
def dateFmt1 (l : List Char) : Bool :=
  let d := l.takeWhile Char.isDigit
  if !(1 ≤ d.length && d.length ≤ 2) then false else
  match l.drop d.length with
  | c :: r =>
    if !(dateSep c) then false else
    let r1 := r.dropWhile pyIsSpace
    let mid := r1.takeWhile Char.isAlpha
    if mid.length = 3 then dateFmt1Tail (r1.drop 3)
    else if mid.length = 0 then
      let dm := r1.takeWhile Char.isDigit
      if 1 ≤ dm.length && dm.length ≤ 2 then dateFmt1Tail (r1.drop dm.length) else false
    else false
  | [] => false

/-- Date pattern 2: numeric day, month and year with separators. -/
def dateFmt2 (l : List Char) : Bool :=
  let d1 := l.takeWhile Char.isDigit
  if !(1 ≤ d1.length && d1.length ≤ 2) then false else
  match l.drop d1.length with
  | c :: r =>
    if !(dateSep c) then false else
    let d2 := r.takeWhile Char.isDigit
    if !(1 ≤ d2.length && d2.length ≤ 2) then false else
    match r.drop d2.length with
    | c2 :: r2 => dateSep c2 && allDigits r2 && 2 ≤ r2.length && r2.length ≤ 4
    | [] => false
  | [] => false

/-- Date pattern 3: ISO ordering, four-digit year first. -/
def dateFmt3 (l : List Char) : Bool :=
  let d1 := l.takeWhile Char.isDigit
  if !(d1.length = 4) then false else
  match l.drop 4 with
  | c :: r =>
    if !(dateSep c) then false else
    let d2 := r.takeWhile Char.isDigit
    if !(1 ≤ d2.length && d2.length ≤ 2) then false else
    match r.drop d2.length with
    | c2 :: r2 => dateSep c2 && allDigits r2 && 1 ≤ r2.length && r2.length ≤ 2
    | [] => false
  | [] => false

/-- Consumption of the optional comma of the date regexes. -/
def dropComma : List Char → List Char
  | ',' :: t => t
  | l => l

/-- Month abbreviations of the date regexes. -/
def monthAbbrevs : List (List Char) :=
  (["jan","feb","mar","apr","may","jun","jul","aug","sep","oct","nov","dec"].map
    String.toList)

/-- Date pattern 4 with IGNORECASE and no end anchor: month name first. -/
def dateFmt4 (l : List Char) : Bool :=
  let low := l.map Char.toLower
  if !(monthAbbrevs.any (fun m => m.isPrefixOf low)) then false else
  let r := l.drop 3
  let ws1 := r.takeWhile pyIsSpace
  if ws1.length = 0 then false else
  let r1 := r.drop ws1.length
  let d := r1.takeWhile Char.isDigit
  if !(1 ≤ d.length && d.length ≤ 2) then false else
  let r2 := r1.drop d.length
  let r3 := dropComma r2
  let ws2 := r3.takeWhile pyIsSpace
  if ws2.length = 0 then false else
  ((r3.drop ws2.length).takeWhile Char.isDigit).length ≥ 4

/-- Date pattern 5 with IGNORECASE and no end anchor: day first, month name. -/
def dateFmt5 (l : List Char) : Bool :=
  let d := l.takeWhile Char.isDigit
  if !(1 ≤ d.length && d.length ≤ 2) then false else
  let r := l.drop d.length
  let ws1 := r.takeWhile pyIsSpace
  if ws1.length = 0 then false else
  let r1 := r.drop ws1.length
  let low := r1.map Char.toLower
  if !(monthAbbrevs.any (fun m => m.isPrefixOf low)) then false else
  let r2 := r1.drop 3
  let ws2 := r2.takeWhile pyIsSpace
  if ws2.length = 0 then false else
  ((r2.drop ws2.length).takeWhile Char.isDigit).length ≥ 2

/-- Indian mobile shape: a digit 6 to 9 followed by nine digits (phone pattern 1). -/
def phoneFmt1 (l : List Char) : Bool :=
  match l with
  | c :: rest => ('6' ≤ c && c ≤ '9') && allDigits rest && rest.length = 9
  | [] => false

/-- Phone pattern 2: a leading zero then ten digits. -/
def phoneFmt2 (l : List Char) : Bool :=
  match l with
  | '0' :: rest => allDigits rest && rest.length = 10
  | _ => false

/-- Phone pattern 3: plus 91, optional separator, Indian mobile. -/
def phoneFmt3 : List Char → Bool
  | '+' :: '9' :: '1' :: r =>
    (match r with
     | c :: t => if c = '-' || pyIsSpace c then phoneFmt1 t else phoneFmt1 r
     | [] => false)
  | _ => false

/-- Phone pattern 4: 91, optional separator, Indian mobile. -/
def phoneFmt4 : List Char → Bool
  | '9' :: '1' :: r =>
    (match r with
     | c :: t => if c = '-' || pyIsSpace c then phoneFmt1 t else phoneFmt1 r
     | [] => false)
  | _ => false

/-- Tail of phone pattern 5: optional separator, five digits, optional
separator, five digits. -/
def phoneFmt5Tail (l : List Char) : Bool :=
  let l1 := match l with
    | c :: r => if c = '-' || pyIsSpace c then r else l
    | [] => l
  let d1 := l1.take 5
  if !(d1.length = 5 && allDigits d1) then false else
  let r := l1.drop 5
  let r1 := match r with
    | c :: t => if c = '-' || pyIsSpace c then t else r
    | [] => r
  allDigits r1 && r1.length = 5

/-- Phone pattern 5: optional country prefix then two groups of five digits. -/
def phoneFmt5 (l : List Char) : Bool :=
  (match l with
   | '+' :: '9' :: '1' :: r => phoneFmt5Tail r
   | _ => false) ||
  (match l with
   | '9' :: '1' :: r => phoneFmt5Tail r
   | _ => false) ||
  (match l with
   | '0' :: r => phoneFmt5Tail r
   | _ => false) ||
  phoneFmt5Tail l

/-- Character class of the email local part. -/
def emailLocalChar (c : Char) : Bool :=
  c.isAlphanum || c = '.' || c = '_' || c = '%' || c = '+' || c = '-'

/-- Character class of the email domain part before the top-level domain. -/
def emailDomChar (c : Char) : Bool := c.isAlphanum || c = '.' || c = '-'

/-- Email pattern: local part, at sign, domain, dot, top-level domain. -/
def emailFmt (l : List Char) : Bool :=
  match splitCharList '@' l [] with
  | [loc, dom] =>
    loc.length ≥ 1 && loc.all emailLocalChar &&
    (let tld := (dom.reverse.takeWhile Char.isAlpha).reverse
     tld.length ≥ 2 &&
     (match (dom.take (dom.length - tld.length)).reverse with
      | '.' :: prest => prest.length ≥ 1 && prest.all emailDomChar
      | _ => false))
  | _ => false

/-- Pincode pattern: exactly six digits. -/
def pincodeFmt (l : List Char) : Bool := allDigits l && l.length = 6

/-- The entity kinds of ENTITY_DEFS, in dictionary insertion order. -/
inductive EntityType where
  | IFSC | PAN | GST | ACCOUNT_NUMBER | INVOICE_NUMBER
  | AMOUNT | DATE | PHONE_NUMBER | EMAIL | PINCODE
deriving DecidableEq, Repr

/-- Iteration order of ENTITY_DEFS.items() used by the cross-entity loop. -/
def entityList : List EntityType :=
  [.IFSC, .PAN, .GST, .ACCOUNT_NUMBER, .INVOICE_NUMBER,
   .AMOUNT, .DATE, .PHONE_NUMBER, .EMAIL, .PINCODE]

/-- Disjunction of the format pattern list of each entity kind
(pattern.match tried in order, equivalently any-of). -/
def formatMatches (e : EntityType) (s : String) : Bool :=
  let l := s.toList
  match e with
  | .IFSC => ifscFmt1 l || ifscFmt2 l
  | .PAN => panFmt1 l || panFmt2 l
  | .GST => gstFmt1 l || gstFmt2 l
  | .ACCOUNT_NUMBER => accFmt1 l || accFmt2 l || accFmt3 l
  | .INVOICE_NUMBER => invFmt1 l || invFmt2 l || invFmt3 l || invFmt4 l || invFmt5 l
  | .AMOUNT => amtFmt1 l || amtFmt2 l || amtFmt3 l || amtFmt4 l
  | .DATE => dateFmt1 l || dateFmt2 l || dateFmt3 l || dateFmt4 l || dateFmt5 l
  | .PHONE_NUMBER => phoneFmt1 l || phoneFmt2 l || phoneFmt3 l || phoneFmt4 l || phoneFmt5 l
  | .EMAIL => emailFmt l
  | .PINCODE => pincodeFmt l

/-- Weighted context keyword table of each entity kind. -/
def contextKeywords : EntityType → List (String × Int)
  | .IFSC =>
    [("ifsc",10),("code",4),("bank",5),("branch",4),("rtgs",3),("neft",3),("imps",3),("swift",2)]
  | .PAN =>
    [("pan",10),("permanent",6),("account",4),("number",3),("tin",5),("tax",3),("payer",2)]
  | .GST =>
    [("gst",10),("gstin",12),("tin",6),("tax",5),("identification",4),("vat",3),
     ("registration",3)]
  | .ACCOUNT_NUMBER =>
    [("account",10),("number",5),("ac",8),("a/c",10),("acc",8),("bank",6),("holder",4),
     ("no",4),("saving",3),("current",3),("beneficiary",5),("payee",4)]
  | .INVOICE_NUMBER =>
    [("invoice",12),("no",6),("number",5),("bill",8),("#",6),("dated",4),("inv",10),
     ("voucher",3),("ref",3),("reference",3)]
  | .AMOUNT =>
    [("amount",12),("total",10),("grand",8),("net",6),("payable",10),("balance",7),
     ("due",6),("rs",5),("inr",5),("₹",8),("rate",3),("value",4),("sum",5),("payment",6),
     ("taxable",4),("subtotal",5),("outstanding",5)]
  | .DATE =>
    [("date",10),("dated",12),("invoice",5),("on",3),("day",4),("issued",6),("created",4),
     ("generated",4),("dt",6)]
  | .PHONE_NUMBER =>
    [("phone",12),("ph",9),("tel",9),("mobile",12),("mob",10),("cell",8),("contact",7),
     ("fax",7),("whatsapp",9),("helpline",5),("toll",5),("call",5),
     ("phone:",12),("ph:",9),("tel:",9),("mobile:",12),("mob:",10),("fax:",7),
     ("contact:",7),("whatsapp:",9)]
  | .EMAIL =>
    [("email",12),("e-mail",10),("mail",6),("contact",4),("@",10)]
  | .PINCODE =>
    [("pin",10),("pincode",12),("postal",8),("zip",6),("code",4)]

/-- Priority bonus of each entity kind. -/
def priorityOf : EntityType → Int
  | .IFSC => 9
  | .PAN => 8
  | .GST => 8
  | .ACCOUNT_NUMBER => 7
  | .INVOICE_NUMBER => 6
  | .AMOUNT => 8
  | .DATE => 7
  | .PHONE_NUMBER => 5
  | .EMAIL => 6
  | .PINCODE => 4

/-- The NEGATIVE_CONTEXT vocabulary of the source. -/
def NEGATIVE_CONTEXT : List String :=
  ["phone", "ph", "ph.", "tel", "tel.", "mobile", "mob", "mob.",
   "cell", "contact", "fax", "fax.", "helpline", "toll", "whatsapp",
   "call", "sms", "isd", "std",
   "phone:", "ph:", "tel:", "mobile:", "mob:", "fax:", "contact:",
   "whatsapp:", "helpline:",
   "page", "of", "copy", "original", "duplicate", "triplicate",
   "pin", "pincode", "postal", "zip"]

/-! ## Scorer (score_token_for_entity) and ranker (find_entity) -/

/-- Lowercased neighbor texts of a token (the surrounding list of the scorer). -/
def surroundingL (t : Token) : List String :=
  (t.prev_tokens ++ t.next_tokens).map strLower

/-- Lowercased words of the source line of a token (re.split on non-word runs). -/
def lineWords (t : Token) : List String :=
  (splitNonWord t.line).map strLower

/-- Union of neighbors and line words; the all_context set of the scorer.
Membership in the Python set equals membership in this list. -/
def allContext (t : Token) : List String := surroundingL t ++ lineWords t

/-- Negative-context hit: the all_context set intersects NEGATIVE_CONTEXT. -/
def negHit (t : Token) : Bool :=
  (allContext t).any (fun w => NEGATIVE_CONTEXT.contains w)

/-- Required positive keywords for the phone entity in the scorer. -/
def phoneContextWords : List String :=
  ["phone", "mobile", "tel", "contact", "mob", "fax", "whatsapp"]

/-- Positive phone context check of the scorer. -/
def hasPhoneContext (t : Token) : Bool :=
  phoneContextWords.any (fun kw => (allContext t).contains kw)

/-- Lowercased last preceding token, used for the adjacency bonus. -/
def prevLastLower (t : Token) : Option String := t.prev_tokens.getLast?.map strLower

/-- Lowercased first following token, used for the adjacency bonus. -/
def nextHeadLower (t : Token) : Option String := t.next_tokens.head?.map strLower

/-- Contribution of one weighted keyword in the positive-context loop:
full weight plus adjacency bonuses among neighbors, half weight when the
keyword only appears among the line words.  Scores are kept in half points
(every score constant of the source appears doubled) so that the half-weight
line contribution stays an integer. -/
def kwContribution (t : Token) (p : String × Int) : Int :=
  if (surroundingL t).contains p.1 then
    2 * p.2 + (if prevLastLower t = some p.1 then 16 else 0) +
      (if nextHeadLower t = some p.1 then 16 else 0)
  else if (lineWords t).contains p.1 then p.2
  else 0

/-- Total positive-context contribution of the keyword loop, in half points. -/
def keywordScore (t : Token) (e : EntityType) : Int :=
  ((contextKeywords e).map (kwContribution t)).sum

/-- Position bonus (5 in the source), in half points: start of text or
preceded by a bare separator token. -/
def positionBonus (t : Token) : Int :=
  if t.pos = 0 then 10
  else
    match t.prev_tokens.getLast? with
    | some x => if [":", "-", "–"].contains x then 10 else 0
    | none => 0

/-- Bold bonus (10 in the source) for the date and invoice-number kinds,
in half points. -/
def boldBonus (t : Token) (e : EntityType) : Int :=
  if t.is_bold && (e = .DATE || e = .INVOICE_NUMBER) then 20 else 0

/-- Keyword weights of another entity found in the all_context set
(the other_context_score of the cross-entity loop; source scale, since it is
only compared against the literal thresholds 10 and 5). -/
def otherContextScore (t : Token) (e : EntityType) : Int :=
  ((contextKeywords e).map (fun p => if (allContext t).contains p.1 then p.2 else 0)).sum

/-- Penalty contributed by one other entity in the cross-entity loop
(25 and 15 in the source), in half points. -/
def entityPenalty (t : Token) (e : EntityType) : Int :=
  if formatMatches e (pyStrip t.text) then
    let oc := otherContextScore t e
    if oc > 10 then 50 else if oc > 5 then 30 else 0
  else 0

/-- Total cross-entity ambiguity penalty, in half points. -/
def crossPenalty (t : Token) (e : EntityType) : Int :=
  ((entityList.filter (fun o => o ≠ e)).map (entityPenalty t)).sum

/-- Embedding of score_token_for_entity from the source: hard format gate,
negative-context kill, required phone context, weighted keywords, position
and bold bonuses, cross-entity penalty, priority boost, clamped at zero.
The returned score is in half points: exactly twice the float score of the
source, so zero, positivity and the ranking order are preserved exactly. -/
def score_token_for_entity (t : Token) (e : EntityType) : Int :=
  if !(formatMatches e (pyStrip t.text)) then 0
  else if e != .PHONE_NUMBER && negHit t then 0
  else if e == .PHONE_NUMBER && !(hasPhoneContext t) then 0
  else
    max (100 + keywordScore t e + positionBonus t + boldBonus t e
          - crossPenalty t e + 2 * priorityOf e) 0

/-- Candidate accumulation of find_entity: every token is scored once per
distinct normalized text (the seen set grows even on zero scores). -/
def findEntityAux (etype : EntityType) : List Token → List String → List (Token × Int)
  | [], _ => []
  | t :: ts, seen =>
    let norm := strUpper (removeDashWs (pyStrip t.text))
    if seen.contains norm then findEntityAux etype ts seen
    else
      let s := score_token_for_entity t etype
      if s > 0 then (t, s) :: findEntityAux etype ts (norm :: seen)
      else findEntityAux etype ts (norm :: seen)

/-- Stable insertion keeping elements of greater or equal key in front
(Python list.sort is stable; reverse=True keeps ties in encounter order). -/
def insertIntoDescBy {α : Type} (sc : α → Int) : List α → α → List α
  | [], x => [x]
  | y :: ys, x => if sc x > sc y then x :: y :: ys else y :: insertIntoDescBy sc ys x

/-- Generic stable sort by descending key, matching Python list.sort with
reverse set and a key projection. -/
def stableSortDescBy {α : Type} (sc : α → Int) (l : List α) : List α :=
  l.foldl (insertIntoDescBy sc) []

/-- Embedding of find_entity from the source: deduplicate by normalized text,
keep positive scores, sort by descending score, return the top candidates. -/
def find_entity (tokens : List Token) (etype : EntityType) (top_n : Nat := 5) :
    List (Token × Int) :=
  (stableSortDescBy (fun p => p.2) (findEntityAux etype tokens [])).take top_n

/-! ## Date normalizer (normalize_date and MONTH_MAP) -/

/-- Month-name table of the source. -/
def MONTH_MAP : List (String × String) :=
  [("jan","01"), ("january","01"), ("feb","02"), ("february","02"),
   ("mar","03"), ("march","03"), ("apr","04"), ("april","04"),
   ("may","05"), ("jun","06"), ("june","06"), ("jul","07"), ("july","07"),
   ("aug","08"), ("august","08"), ("sep","09"), ("sept","09"), ("september","09"),
   ("oct","10"), ("october","10"), ("nov","11"), ("november","11"),
   ("dec","12"), ("december","12")]

/-- MONTH_MAP.get with the source default of 01, applied to the lowered
first three letters of the captured month group. -/
def monthLookup (mon : String) : String :=
  (((MONTH_MAP.find? (fun p => p.1 = String.mk ((strLower mon).toList.take 3))).map
    Prod.snd)).getD "01"

/-- Separator class of date patterns 1 and 2 of the normalizer: dash, period,
slash or whitespace. -/
def ndSep (c : Char) : Bool := c = '-' || c = '.' || c = '/' || pyIsSpace c

/-- Capture groups of normalizer pattern 1: day, month name, year (prefix match). -/
def ndP1 (l : List Char) : Option (String × String × String) :=
  let d := l.takeWhile Char.isDigit
  if !(1 ≤ d.length && d.length ≤ 2) then none else
  let r := l.drop d.length
  let sep1 := r.takeWhile ndSep
  if sep1.length = 0 then none else
  let r1 := r.drop sep1.length
  let mon := r1.takeWhile Char.isAlpha
  if !(3 ≤ mon.length && mon.length ≤ 9) then none else
  let r2 := r1.drop mon.length
  let sep2 := r2.takeWhile ndSep
  if sep2.length = 0 then none else
  let y := (r2.drop sep2.length).takeWhile Char.isDigit
  if y.length < 2 then none else
  some (String.mk d, String.mk mon, String.mk (y.take 4))

/-- Capture groups of normalizer pattern 2: month name, day, year (prefix match). -/
def ndP2 (l : List Char) : Option (String × String × String) :=
  let mon := l.takeWhile Char.isAlpha
  if !(3 ≤ mon.length && mon.length ≤ 9) then none else
  let r := l.drop mon.length
  let ws1 := r.takeWhile pyIsSpace
  if ws1.length = 0 then none else
  let r1 := r.drop ws1.length
  let d := r1.takeWhile Char.isDigit
  if !(1 ≤ d.length && d.length ≤ 2) then none else
  let r2 := r1.drop d.length
  let r3 := dropComma r2
  let ws2 := r3.takeWhile pyIsSpace
  if ws2.length = 0 then none else
  let y := (r3.drop ws2.length).takeWhile Char.isDigit
  if y.length < 4 then none else
  some (String.mk mon, String.mk d, String.mk (y.take 4))

/-- Separator class of normalizer patterns 3 and 4: dash, period or slash. -/
def ndSep3 (c : Char) : Bool := c = '-' || c = '.' || c = '/'

/-- Capture groups of normalizer pattern 3: numeric day, month, year (prefix match). -/
def ndP3 (l : List Char) : Option (String × String × String) :=
  let d1 := l.takeWhile Char.isDigit
  if !(1 ≤ d1.length && d1.length ≤ 2) then none else
  match l.drop d1.length with
  | c :: r =>
    if !(ndSep3 c) then none else
    let d2 := r.takeWhile Char.isDigit
    if !(1 ≤ d2.length && d2.length ≤ 2) then none else
    match r.drop d2.length with
    | c2 :: r2 =>
      if !(ndSep3 c2) then none else
      let y := r2.takeWhile Char.isDigit
      if y.length < 2 then none else
      some (String.mk d1, String.mk d2, String.mk (y.take 4))
    | [] => none
  | [] => none

/-- Capture groups of normalizer pattern 4 (ISO): year, month, day (prefix match). -/
def ndP4 (l : List Char) : Option (String × String × String) :=
  let y := l.takeWhile Char.isDigit
  if !(y.length = 4) then none else
  match l.drop 4 with
  | c :: r =>
    if !(ndSep3 c) then none else
    let m := r.takeWhile Char.isDigit
    if !(1 ≤ m.length && m.length ≤ 2) then none else
    match r.drop m.length with
    | c2 :: r2 =>
      if !(ndSep3 c2) then none else
      let d := r2.takeWhile Char.isDigit
      if d.length < 1 then none else
      some (String.mk y, String.mk m, String.mk (d.take 2))
    | [] => none
  | [] => none

/-- Two-digit year expansion of the source: 20YY for years up to 50,
19YY beyond, longer year strings unchanged. -/
def expandYear (y : String) : String :=
  if y.length = 2 then (if digitsToNat y ≤ 50 then "20" ++ y else "19" ++ y) else y

/-- Embedding of normalize_date from the source: the four patterns tried in
order, unrecognized shapes passed through stripped. -/
def normalize_date (date_str : String) : String :=
  if date_str = "" then ""
  else
    let ds := pyStrip date_str
    match ndP1 ds.toList with
    | some (d, mon, y) => zfill2 d ++ "-" ++ monthLookup mon ++ "-" ++ expandYear y
    | none =>
      match ndP2 ds.toList with
      | some (mon, d, y) => zfill2 d ++ "-" ++ monthLookup mon ++ "-" ++ y
      | none =>
        match ndP3 ds.toList with
        | some (d, m, y) => zfill2 d ++ "-" ++ zfill2 m ++ "-" ++ expandYear y
        | none =>
          match ndP4 ds.toList with
          | some (y, m, d) => zfill2 d ++ "-" ++ zfill2 m ++ "-" ++ y
          | none => ds

/-! ## Bank name resolver (derive_bank_name and IFSC_PREFIX_MAP) -/

/-- Static bank table of the source. -/
def IFSC_PREFIX_MAP : List (String × String) :=
  [("HDFC", "HDFC Bank"), ("ICIC", "ICICI Bank"), ("SBIN", "State Bank of India"),
   ("AXIS", "Axis Bank"), ("KKBK", "Kotak Mahindra Bank"), ("BKID", "Bank of India"),
   ("PUNB", "Punjab National Bank"), ("UBIN", "Union Bank of India"),
   ("BARB", "Bank of Baroda"), ("CNRB", "Canara Bank"), ("INDB", "IndusInd Bank"),
   ("UTIB", "Axis Bank"), ("YESB", "Yes Bank"), ("RATN", "RBL Bank"),
   ("BDBL", "Bandhan Bank"), ("FDRL", "Federal Bank"), ("SIBL", "South Indian Bank"),
   ("KVBL", "Karur Vysya Bank"), ("TMBL", "Tamilnad Mercantile Bank"),
   ("CITI", "Citibank"), ("HSBC", "HSBC"), ("SCBL", "Standard Chartered Bank"),
   ("DBSS", "DBS Bank"), ("IOBA", "Indian Overseas Bank"), ("IDIB", "Indian Bank"),
   ("MAHB", "Bank of Maharashtra"), ("UCBA", "UCO Bank"),
   ("CBIN", "Central Bank of India"), ("ALLA", "Allahabad Bank"),
   ("CORP", "Corporation Bank"), ("ANDB", "Andhra Bank"), ("VIJB", "Vijaya Bank"),
   ("AIRP", "Airtel Payments Bank"), ("PYTM", "Paytm Payments Bank"),
   ("JIOP", "Jio Payments Bank")]

/-- Embedding of derive_bank_name from the source: empty for short input,
otherwise the table entry of the uppercased four-character head, with the
head itself as the fallback. -/
def derive_bank_name (ifsc : String) : String :=
  if ifsc = "" || ifsc.length < 4 then ""
  else
    let p4 := strUpper (String.mk (ifsc.toList.take 4))
    (((IFSC_PREFIX_MAP.find? (fun x => x.1 = p4)).map Prod.snd)).getD p4

/-! ## Cross-field validator (validate_extraction) -/

/-- A record is the ordered field map assembled per document. -/
def Record := List (String × String)
deriving DecidableEq, Repr

/-- Python record.get with the falsy default used by the validator. -/
def recGet (r : Record) (k : String) : String :=
  (((r.find? (fun p => p.1 = k)).map Prod.snd)).getD ""

/-- Embedding of validate_extraction from the source: critical errors first,
then banking, invoice, phone, tax and amount warnings, in source order. -/
def validate_extraction (record : Record) : List String :=
  let errors :=
    (if recGet record "Party name" = "" then ["⚠️ CRITICAL: Party name not detected"] else []) ++
    (if recGet record "Invoice Date" = "" then ["⚠️ CRITICAL: Invoice date not detected"] else []) ++
    (if recGet record "Amount" = "" then ["⚠️ CRITICAL: Amount not detected"] else [])
  let has_account := recGet record "Bank Account No" ≠ ""
  let has_ifsc := recGet record "IFSC Code" ≠ ""
  let has_amount := recGet record "Amount" ≠ ""
  let w1 := if has_amount && !has_account then
      ["Amount found but no Bank Account Number detected"] else []
  let w2 := if has_account && !has_ifsc then
      ["Account Number found but no IFSC Code detected"] else []
  let w3 := if has_ifsc && !has_account then
      ["IFSC Code found but no Account Number detected"] else []
  let inv := recGet record "Invoice No."
  let w4 :=
    if inv ≠ "" then
      (if inv.length > 12 then
        ["Invoice No. \x27" ++ inv ++ "\x27 is unusually long — may be misclassified"] else []) ++
      (if pyIsDigitStr inv && inv.length = 10 then
        ["Invoice No. \x27" ++ inv ++ "\x27 looks like a phone number"] else [])
    else ["Invoice Number not detected"]
  let phone := recGet record "Phone Number"
  let w5 := if phone ≠ "" && (keepDigits phone).length ≠ 10 then
      ["Phone Number \x27" ++ phone ++ "\x27 has unusual length"] else []
  let w6 := if recGet record "PAN Number / GST" = "" then ["PAN/GST not detected"] else []
  let amount := recGet record "Amount"
  let w7 :=
    if amount ≠ "" then
      match parseDecimal? amount with
      | some v =>
        (if v.ltNat 1 then ["Amount " ++ decimalRepr v ++ " seems too small"] else []) ++
        (if v.gtNat 10000000 then
          ["Amount " ++ decimalRepr v ++ " is very large — please verify"] else [])
      | none => ["Amount \x27" ++ amount ++ "\x27 is not a valid number"]
    else []
  errors ++ w1 ++ w2 ++ w3 ++ w4 ++ w5 ++ w6 ++ w7

/-! ## Generic regex-search helpers for the fallback extractors -/

/-- Case-insensitive literal at the head of a character list
(the literal is written lowercased). -/
def ciPre (pat : List Char) (l : List Char) : Bool :=
  pat.isPrefixOf ((l.take pat.length).map Char.toLower)

/-- Case-insensitive literal with a string pattern. -/
def ciPreS (pat : String) (l : List Char) : Bool := ciPre pat.toList l

/-- The re.search loop: try a position matcher at every suffix, leftmost wins. -/
def searchPos {α} (f : List Char → Option α) : List Char → Option α
  | [] => f []
  | l@(_ :: rest) => (f l).orElse (fun _ => searchPos f rest)

/-- Boolean re.search. -/
def searchAny (f : List Char → Bool) : List Char → Bool
  | [] => f []
  | l@(_ :: rest) => f l || searchAny f rest

/-- Fuelled global re.sub: at each position try the alternation, remove the
matched span, continue after it.  Every alternative consumes at least one
character, so fuel equal to the length is never exhausted. -/
def globalSub (alt : List Char → Option Nat) : Nat → List Char → List Char
  | 0, l => l
  | _ + 1, [] => []
  | n + 1, c :: rest =>
    match alt (c :: rest) with
    | some k => globalSub alt n ((c :: rest).drop k)
    | none => c :: globalSub alt n rest

/-- Truncation from the leftmost position where a matcher fires
(the re.sub with a dot-star-dollar tail). -/
def truncFrom (f : List Char → Bool) : List Char → List Char
  | [] => []
  | l@(c :: rest) => if f l then [] else c :: truncFrom f rest

/-! ## Inline bank details (parse_inline_bank_details) -/

/-- Separator class of the inline label patterns: colon, en dash, em dash, dash. -/
def inlineSepChar (c : Char) : Bool := c = ':' || c = '–' || c = '—' || c = '-'

/-- Tail capture of the inline account patterns: optional whitespace, one
separator, optional whitespace, then 9 to 18 digits (greedy, no end anchor). -/
def accCapture (l : List Char) : Option String :=
  match l.dropWhile pyIsSpace with
  | c :: r =>
    if !(inlineSepChar c) then none else
    let d := (r.dropWhile pyIsSpace).takeWhile Char.isDigit
    if d.length < 9 then none else some (String.mk (d.take 18))
  | [] => none

/-- Inline account pattern 1 at a position.  The optional bank prefix of the
source regex does not change which lines match nor the captured digits, since
a match through the prefix contains a match starting at the account literal. -/
def accPat1At (l : List Char) : Option String :=
  if !(ciPreS "account" l) then none else
  let r := l.drop 7
  let w := r.takeWhile pyIsSpace
  if w.length = 0 then none else
  let r1 := r.drop w.length
  ((if ciPreS "no" r1 then accCapture (r1.drop 2) else none).orElse (fun _ =>
    if ciPreS "number" r1 then accCapture (r1.drop 6) else none)).orElse (fun _ =>
      (if ciPreS "#" r1 then accCapture (r1.drop 1) else none).orElse (fun _ =>
        accCapture r1))

/-- Inline account pattern 2 at a position. -/
def accPat2At (l : List Char) : Option String :=
  let r0 : Option (List Char) :=
    if ciPreS "a/c" l then some (l.drop 3)
    else if ciPreS "ac" l then some (l.drop 2)
    else none
  match r0 with
  | none => none
  | some r =>
    let w := r.takeWhile pyIsSpace
    if w.length = 0 then none else
    let r1 := r.drop w.length
    ((if ciPreS "no" r1 then accCapture (r1.drop 2) else none).orElse (fun _ =>
      if ciPreS "number" r1 then accCapture (r1.drop 6) else none)).orElse (fun _ =>
        accCapture r1)

/-- Inline account pattern 3 at a position. -/
def accPat3At (l : List Char) : Option String :=
  if ciPreS "acc" l then accCapture (l.drop 3) else none

/-- Tail capture of the inline routing-code patterns: optional whitespace,
separator, optional whitespace, four letters and seven alphanumerics. -/
def ifscCapture (l : List Char) : Option String :=
  match l.dropWhile pyIsSpace with
  | c :: r =>
    if !(inlineSepChar c) then none else
    let g := (r.dropWhile pyIsSpace).take 11
    if g.length = 11 && allAlpha (g.take 4) && allAlphanum (g.drop 4) then
      some (String.mk g)
    else none
  | [] => none

/-- Inline routing-code pattern at a position, for a given keyword. -/
def ifscPatAt (kw : List Char) (l : List Char) : Option String :=
  if !(ciPre kw l) then none else
  let r := (l.drop kw.length).dropWhile pyIsSpace
  (if ciPreS "code" r then ifscCapture (r.drop 4) else none).orElse (fun _ => ifscCapture r)

/-- Lazy capture of the bank-name patterns: the shortest nonempty run of
letters, whitespace and ampersands ending right before a comma, a pipe or the
end of the line. -/
def bankNameCap : List Char → List Char → Option String
  | [], acc => if acc.length ≥ 1 then some (String.mk acc.reverse) else none
  | c :: rest, acc =>
    if acc.length ≥ 1 && (c = ',' || c = '|') then some (String.mk acc.reverse)
    else if c.isAlpha || pyIsSpace c || c = '&' then bankNameCap rest (c :: acc)
    else none

/-- Separator-then-capture tail of the bank-name patterns.  When the first
character after the whitespace run is already a terminator, the star group of
the source regex backtracks by one whitespace character and the capture is
that whitespace, which strips to the empty name. -/
def bankNameTail (l : List Char) : Option String :=
  match l.dropWhile pyIsSpace with
  | c :: r =>
    if !(inlineSepChar c) then none else
    let w := r.takeWhile pyIsSpace
    let r1 := r.drop w.length
    match bankNameCap r1 [] with
    | some cap => some cap
    | none =>
      if w.length ≥ 1 && (match r1 with | [] => true | d :: _ => d = ',' || d = '|') then
        some " "
      else none
  | [] => none

/-- Bank-name pattern 1 at a position: bank, whitespace, name, separator, capture. -/
def bankPat1At (l : List Char) : Option String :=
  if !(ciPreS "bank" l) then none else
  let r := l.drop 4
  let w := r.takeWhile pyIsSpace
  if w.length = 0 then none else
  let r1 := r.drop w.length
  if !(ciPreS "name" r1) then none else
  bankNameTail (r1.drop 4)

/-- Bank-name pattern 2 at a position: bank, separator, capture. -/
def bankPat2At (l : List Char) : Option String :=
  if !(ciPreS "bank" l) then none else bankNameTail (l.drop 4)

/-- Result dictionary of parse_inline_bank_details. -/
structure InlineBank where
  account_no : Option String := none
  ifsc : Option String := none
  bank_name : Option String := none
deriving DecidableEq, Repr

/-- Embedding of parse_inline_bank_details from the source: scan lines
carrying a banking keyword, fill the three optional fields, stop after a
line that produced an account number or routing code. -/
def parse_inline_bank_details (text : String) : InlineBank :=
  let step := fun (st : InlineBank × Bool) (line : String) =>
    if st.2 then st else
    let res := st.1
    let lowS := strLower line
    if !(containsSub lowS "bank" || containsSub lowS "account" || containsSub lowS "ifsc") then
      (res, false)
    else
      let lc := line.toList
      let acc := ((searchPos accPat1At lc).orElse (fun _ => searchPos accPat2At lc)).orElse
        (fun _ => searchPos accPat3At lc)
      let res1 := match acc with
        | some a => { res with account_no := some (pyStrip a) }
        | none => res
      let ifscv := (searchPos (ifscPatAt "ifsc".toList) lc).orElse
        (fun _ => searchPos (ifscPatAt "rtgs".toList) lc)
      let res2 := match ifscv with
        | some x => { res1 with ifsc := some (pyStrip (strUpper x)) }
        | none => res1
      let res3 := match searchPos bankPat1At lc with
        | some cap =>
          if (pyStrip cap).length > 2 then { res2 with bank_name := some (pyStrip cap) } else res2
        | none =>
          match searchPos bankPat2At lc with
          | some cap =>
            if (pyStrip cap).length > 2 then { res2 with bank_name := some (pyStrip cap) } else res2
          | none => res2
      (res3, res3.account_no.isSome || res3.ifsc.isSome)
  ((pySplitLines text).foldl step (⟨none, none, none⟩, false)).1

/-! ## Party name extraction (extract_party_name) -/

/-- Matcher for the account-holder alternative at a position. -/
def accHolderAt (l : List Char) : Bool :=
  ciPreS "account" l &&
    (let r := l.drop 7
     let w := r.takeWhile pyIsSpace
     w.length ≥ 1 && ciPreS "holder" (r.drop w.length))

/-- Trigger of party strategy 1: account holder, beneficiary or payee on the line. -/
def s1Trigger (line : String) : Bool :=
  searchAny accHolderAt line.toList ||
  containsSub (strLower line) "beneficiary" || containsSub (strLower line) "payee"

/-- Alternation of the label-removal substitution of party strategy 1,
returning the matched length at a position. -/
def s1AltLen (l : List Char) : Option Nat :=
  let ah : Option Nat :=
    if ciPreS "account" l then
      let r := l.drop 7
      let w := r.takeWhile pyIsSpace
      if w.length ≥ 1 && ciPreS "holder" (r.drop w.length) then some (13 + w.length) else none
    else none
  ((((ah.orElse (fun _ => if ciPreS "beneficiary" l then some 11 else none)).orElse
    (fun _ => if ciPreS "payee" l then some 5 else none)).orElse
      (fun _ => if ciPreS "name" l then some 4 else none)).orElse
        (fun _ => match l with | ':' :: _ => some 1 | _ => none)).orElse
          (fun _ => match l with | '-' :: _ => some 1 | _ => none)

/-- Character class of the candidate regex of party strategy 1. -/
def s1NameChar (c : Char) : Bool :=
  c.isAlpha || pyIsSpace c || c = '.' || c = '&' || c = ',' || c = '-'

/-- Full-string candidate check of party strategy 1. -/
def s1NameRe (s : String) : Bool :=
  s.toList.length ≥ 1 && s.toList.all s1NameChar

/-- Suffix-pattern search of party strategy 2 (company suffixes). -/
def s2SuffixHit (line : String) : Bool :=
  let lc := line.toList
  let low := strLower line
  searchAny (fun l =>
    ciPreS "pvt" l &&
      (let r := l.drop 3
       let r1 := match r with | '.' :: t => t | _ => r
       ciPreS "ltd" (r1.dropWhile pyIsSpace))) lc ||
  searchAny (fun l =>
    ciPreS "private" l &&
      (let r := l.drop 7
       let w := r.takeWhile pyIsSpace
       w.length ≥ 1 && ciPreS "limited" (r.drop w.length))) lc ||
  containsSub low "llp" || containsSub low "limited" || containsSub low "ltd" ||
  containsSub low "inc" || containsSub low "corporation" || containsSub low "enterprises" ||
  containsSub low "industries" || containsSub low "traders"

/-- Truncation trigger of party strategy 2. -/
def s2CutAt (l : List Char) : Bool :=
  ciPreS "invoice" l || ciPreS "bill" l || ciPreS "tax" l || ciPreS "gst" l || ciPreS "pan" l

/-- Character class of the header-line regex of party strategy 3. -/
def s3NameChar (c : Char) : Bool :=
  c.isAlpha || pyIsSpace c || c = '.' || c = '&' || c = ',' || c = '-' || c = '(' || c = ')'

/-- Header-line regex of party strategy 3: uppercase head then the class. -/
def s3Re (s : String) : Bool :=
  match s.toList with
  | c :: rest => c.isUpper && rest.length ≥ 1 && rest.all s3NameChar
  | [] => false

/-- Label skip list of party strategy 3. -/
def s3SkipWords : List String :=
  ["invoice", "phone", "email", "address", "gst", "pan",
   "date", "total", "amount", "bank", "ifsc", "bill",
   "tax", "original", "copy", "page"]

/-- Heading matcher of party strategy 4: optional whitespace, the word
INVOICE, then a word boundary. -/
def s4InvMatch (s : String) : Bool :=
  let r := s.toList.dropWhile pyIsSpace
  ciPreS "invoice" r &&
    (match r.drop 7 with
     | [] => true
     | c :: _ => !(isWordChar c))

/-- Candidate regex of party strategy 4: uppercase head then the class
without parentheses. -/
def s4Re (s : String) : Bool :=
  match s.toList with
  | c :: rest => c.isUpper && rest.length ≥ 1 && rest.all s1NameChar
  | [] => false

/-- Alternation of the capitals-cleanup substitution of party strategy 5
(case sensitive literals, then digit runs). -/
def s5AltLen (l : List Char) : Option Nat :=
  ((((( if "INVOICE".toList.isPrefixOf l then some 7 else none).orElse
    (fun _ => if "BILL".toList.isPrefixOf l then some 4 else none)).orElse
      (fun _ => if "ORIGINAL".toList.isPrefixOf l then some 8 else none)).orElse
        (fun _ => if "COPY".toList.isPrefixOf l then some 4 else none)).orElse
          (fun _ => if "PAGE".toList.isPrefixOf l then some 4 else none)).orElse
            (fun _ =>
              let d := l.takeWhile Char.isDigit
              if d.length ≥ 1 then some d.length else none)

/-- Candidates of party strategy 1: label-block lines and their two successors. -/
def partyStrat1 (lines : List String) : List (String × Int) :=
  let n := lines.length
  (lines.enum.filter (fun p => s1Trigger p.2)).flatMap (fun p =>
    (List.range' p.1 (min 3 (n - p.1))).filterMap (fun j =>
      let lj := lines.getD j ""
      let cand := pyStrip (String.mk (globalSub s1AltLen lj.toList.length lj.toList))
      if cand ≠ "" && s1NameRe cand && 3 < cand.length && cand.length < 100 then
        some (cand, (50 : Int) + (if pyIsUpper cand then 15 else 0))
      else none))

/-- Candidates of party strategy 2: company-suffix lines in the first 15. -/
def partyStrat2 (lines : List String) : List (String × Int) :=
  (lines.take 15).enum.filterMap (fun p =>
    let line := pyStrip p.2
    if s2SuffixHit line then
      let clean := pyStrip (String.mk (truncFrom s2CutAt line.toList))
      if 5 < clean.length && clean.length < 100 then
        some (clean, (60 : Int) + (if pyIsUpper line then 10 else 0) +
          (if p.1 ≤ 5 then 15 else 0))
      else none
    else none)

/-- Candidates of party strategy 3: alphabetic header lines in the first 8. -/
def partyStrat3 (lines : List String) : List (String × Int) :=
  (lines.take 8).enum.filterMap (fun p =>
    let line := pyStrip p.2
    if line = "" || line.length < 5 then none
    else if s3Re line && 5 < line.length && line.length < 80 then
      if s3SkipWords.any (fun sw => containsSub (strLower line) sw) then none
      else
        some (line, (35 : Int) + (if p.1 ≤ 2 then 20 else 0) +
          (if pyIsUpper line then 10 else 0) + (if line.length > 15 then 5 else 0))
    else none)

/-- Candidates of party strategy 4: the first qualifying line after an
INVOICE heading. -/
def partyStrat4 (lines : List String) : List (String × Int) :=
  let n := lines.length
  (lines.enum.filter (fun p => s4InvMatch (pyStrip p.2))).filterMap (fun p =>
    ((List.range' (p.1 + 1) (min 3 (n - (p.1 + 1)))).filterMap (fun j =>
      let cand := pyStrip (lines.getD j "")
      if cand ≠ "" && s4Re cand && 5 < cand.length && cand.length < 80 then
        some (cand, (40 : Int))
      else none)).head?)

/-- Candidates of party strategy 5: cleaned all-capitals lines in the first 10. -/
def partyStrat5 (lines : List String) : List (String × Int) :=
  (lines.take 10).enum.filterMap (fun p =>
    let st := pyStrip p.2
    if pyIsUpper st && 8 < st.length && st.length < 80 then
      let clean := pyStrip (String.mk (globalSub s5AltLen p.2.toList.length p.2.toList))
      if clean.length > 5 then
        some (clean, (30 : Int) + (if p.1 ≤ 3 then 15 else 0))
      else none
    else none)

/-- Deduplication of party candidates by uppercased stripped name, keeping
the first occurrence. -/
def dedupParty : List (String × Int) → List String → List (String × Int)
  | [], _ => []
  | (name, sc) :: rest, seen =>
    let norm := (pyStrip (strUpper name))
    if seen.contains norm then dedupParty rest seen
    else (name, sc) :: dedupParty rest (norm :: seen)

/-- Embedding of extract_party_name from the source (the token argument of
the source is unused there and omitted here): five strategies, deduplication,
stable sort by descending score, best candidate or the empty default. -/
def extract_party_name (text : String) : String × Int :=
  let lines := pySplitLines text
  let candidates := partyStrat1 lines ++ partyStrat2 lines ++ partyStrat3 lines ++
    partyStrat4 lines ++ partyStrat5 lines
  match candidates with
  | [] => ("", 0)
  | _ =>
    ((stableSortDescBy (fun p => p.2) (dedupParty candidates [])).head?).getD ("", 0)

/-! ## Table amount extraction (extract_amount_from_tables) -/

/-- Tables are grids of optional cell strings, as handed over by the
document-extraction collaborator. -/
def Table := List (List (Option String))

/-- Header keywords of the amount column search. -/
def amount_keywords : List String :=
  ["amount", "total", "grand total", "net amount",
   "payable", "balance", "due", "sum", "value",
   "subtotal", "invoice amount", "bill amount"]

/-- Lowercased stripped text of a cell, empty for falsy cells. -/
def cellText (c : Option String) : String :=
  match c with
  | some s => if s = "" then "" else pyStrip (strLower s)
  | none => ""

/-- Leftmost column of a row whose header cell carries an amount keyword. -/
def rowAmountCol (row : List (Option String)) : Option Nat :=
  (row.enum.find? (fun p =>
    amount_keywords.any (fun kw => containsSub (cellText p.2) kw))).map Prod.fst

/-- Amount column and header row among the first five rows of a table. -/
def findAmountCol (table : Table) : Option (Nat × Nat) :=
  ((table.take 5).enum.filterMap (fun p =>
    if p.2.isEmpty then none
    else (rowAmountCol p.2).map (fun c => (c, p.1)))).head?

/-- Tail of the perfect currency shape: thousands groups then two decimals. -/
def perfectTail : List Char → Bool
  | '.' :: a :: b :: [] => a.isDigit && b.isDigit
  | ',' :: a :: b :: c :: rest => a.isDigit && b.isDigit && c.isDigit && perfectTail rest
  | _ => false

/-- Perfect currency shape of the table scorer. -/
def perfectCurrency (l : List Char) : Bool :=
  let d := l.takeWhile Char.isDigit
  1 ≤ d.length && d.length ≤ 3 && perfectTail (l.drop d.length)

/-- Joined lowercased text of the truthy cells of a row. -/
def rowText (row : List (Option String)) : String :=
  joinWith " " (row.filterMap (fun c =>
    match c with
    | some s => if s = "" then none else some s
    | none => none))

/-- Total-marker check on the joined row text. -/
def rowTextHasTotal (row : List (Option String)) : Bool :=
  ["total", "grand", "net", "payable"].any (fun w => containsSub (strLower (rowText row)) w)

/-- Candidate from one data row of the amount column: cleaned text, score and
numeric value. -/
def tableRowCandidate (tableLen colIdx rowIdx : Nat) (row : List (Option String)) :
    Option (String × Int × Dec) :=
  let cellv := row.getD colIdx none
  let truthy := match cellv with | some s => s ≠ "" | none => false
  if !truthy then none else
  let s := match cellv with | some s0 => s0 | none => ""
  let raw := keepDigitsCommaDot (pyStrip s)
  if raw = "" || (raw.toList.filter (fun c => c = '.')).length > 1 then none else
  match parseDecimal? (removeCommas raw) with
  | none => none
  | some v =>
    if v.geNat 1 && v.ltNat 10000000000 then
      some (raw,
        (15 : Int) + (if raw.toList.contains '.' then 20 else 0) +
          (if perfectCurrency raw.toList then 30 else 0) +
          (if rowIdx = tableLen - 1 then 40 else 0) +
          (if rowTextHasTotal row then 50 else 0),
        v)
    else none

/-- Stable insertion by the descending pair of score then value. -/
def insertIntoDescSV :
    List (String × Int × Dec) → (String × Int × Dec) → List (String × Int × Dec)
  | [], x => [x]
  | y :: ys, x =>
    if x.2.1 > y.2.1 || (x.2.1 = y.2.1 && x.2.2.gtDec y.2.2) then x :: y :: ys
    else y :: insertIntoDescSV ys x

/-- Embedding of extract_amount_from_tables from the source. -/
def extract_amount_from_tables (tables : List Table) : String × Int :=
  let candidates := tables.flatMap (fun table =>
    if table.isEmpty || table.length < 2 then []
    else
      match findAmountCol table with
      | none => []
      | some (colIdx, headerRow) =>
        (table.drop (headerRow + 1)).enum.filterMap (fun p =>
          tableRowCandidate table.length colIdx (p.1 + headerRow + 1) p.2))
  match (candidates.foldl insertIntoDescSV []).head? with
  | some (raw, sc, _) =>
    let best := removeCommas raw
    ((if best.toList.contains '.' then best else best ++ ".00"), sc)
  | none => ("", 0)

/-! ## Address extraction (extract_address) -/

/-- Address keywords of the source. -/
def address_keywords : List String :=
  ["address", "bill to", "ship to", "billing address", "shipping address"]

/-- Section-header stop of the address collector. -/
def addrSectionStop (s : String) : Bool :=
  ["invoice", "bill", "gst", "pan", "amount"].any (fun w => ciPre w.toList s.toList)

/-- Collector of following address lines, stopping at a section header. -/
def collectAddr : List String → List String
  | [] => []
  | s :: rest =>
    let a := pyStrip s
    if a ≠ "" && a.length > 3 then
      if addrSectionStop a then [] else a :: collectAddr rest
    else collectAddr rest

/-- Embedding of extract_address from the source (the text argument of the
source is unused there and omitted here). -/
def extract_address (lines : List String) : String :=
  let candidates := lines.enum.filterMap (fun p =>
    let lineLower := pyStrip (strLower p.2)
    if address_keywords.any (fun kw => containsSub lineLower kw) then
      let addr := collectAddr ((lines.drop (p.1 + 1)).take 6)
      if addr.isEmpty then none
      else some (joinWith ", " (addr.take 5), (50 : Int))
    else none)
  (((stableSortDescBy (fun p => p.2) candidates).head?).map Prod.fst).getD ""

/-! ## Main pipeline (extract_invoice_data)

The pdfplumber collaborator is modelled by the data it returns: a list of
pages, each carrying the optional page text and the page tables.  A page
whose extraction raises is an error value and is skipped by the per-page
handler of the source; a failure of the whole open or scan is the outer
error value, caught at the per-document boundary. -/

/-- Extracted content of one page. -/
structure PageData where
  text : Option String
  tables : List Table

/-- Page texts joined with the page banner of the source, and all tables. -/
def gatherDoc (pages : List (Except String PageData)) : String × List Table :=
  pages.enum.foldl (fun acc p =>
    match p.2 with
    | .error _ => acc
    | .ok pd =>
      let acc1 := match pd.text with
        | some t =>
          if t ≠ "" then
            acc.1 ++ "\n--- PAGE " ++ toString (p.1 + 1) ++ " ---\n" ++ t ++ "\n"
          else acc.1
        | none => acc.1
      let acc2 := if pd.tables.isEmpty then acc.2 else acc.2 ++ pd.tables
      (acc1, acc2)) ("", [])

/-- Invoice-number selection walk of the pipeline: first candidate of at
most 12 characters that is not among the account-candidate texts. -/
def selectInvoiceNo (invTexts accTexts : List String) : String :=
  (invTexts.find? (fun c => c.length ≤ 12 && !(accTexts.contains c))).getD ""

/-- Account-number selection walk of the pipeline: first candidate different
from the committed invoice number with 9 to 18 characters. -/
def selectAccountNo (inv : String) (accTexts : List String) : String :=
  (accTexts.find? (fun c => c ≠ inv && 9 ≤ c.length && c.length ≤ 18)).getD ""

/-- Inline-fallback commit of the pipeline: a truthy inline value fills the
field only when the scored walk committed nothing. -/
def applyInlineField (v : String) (inline : Option String) : String :=
  if v = "" then
    match inline with
    | some a => if a ≠ "" then a else v
    | none => v
  else v

/-- Record constructor of the pipeline: the fixed ordered key list paired
with the selected field values. -/
def buildRecord (party_name inv_date inv_no amount phone_no email address
    bank_name acc_no ifsc pan_gst : String) : Record :=
  [("Party name", party_name), ("Invoice Date", inv_date), ("Invoice No.", inv_no),
   ("Amount", amount), ("Phone Number", phone_no), ("Email", email),
   ("Address", address), ("Bank Name", bank_name), ("Bank Account No", acc_no),
   ("IFSC Code", ifsc), ("PAN Number / GST", pan_gst)]

/-- Post-selection routing-code shape check of the pipeline. -/
def finalIfscCheck (s : String) : Bool :=
  let l := s.toList
  l.length = 11 && (l.take 4).all Char.isUpper && (l.drop 4).all (fun c => c.isDigit || c.isUpper)

/-- Post-selection tax-id shape check of the pipeline. -/
def finalPanCheck (s : String) : Bool :=
  let l := s.toList
  l.length = 10 && (l.take 5).all Char.isUpper && allDigits ((l.drop 5).take 4) &&
    (l.drop 9).all Char.isUpper

/-- Embedding of extract_invoice_data from the source: gather page text and
tables, tokenize, score the nine entity kinds, select and disambiguate the
fields, apply the inline bank fallback, assemble the record and validate it.
The error case is the per-document exception boundary of the source. -/
def extract_invoice_data (inp : Except String (List (Except String PageData))) :
    Option Record × List String :=
  match inp with
  | .error e => (none, ["Critical Error: " ++ e])
  | .ok pages =>
    let gd := gatherDoc pages
    let full_text := gd.1
    let all_tables := gd.2
    if pyStrip full_text = "" then
      (none, ["No text extracted — PDF may be image-based or corrupted"])
    else
      let lines := pySplitLines full_text
      let tokens := tokenize full_text 6
      let ifsc_candidates := find_entity tokens .IFSC 5
      let pan_candidates := find_entity tokens .PAN 5
      let gst_candidates := find_entity tokens .GST 5
      let acc_candidates := find_entity tokens .ACCOUNT_NUMBER 5
      let inv_candidates := find_entity tokens .INVOICE_NUMBER 5
      let date_candidates := find_entity tokens .DATE 5
      let amount_candidates := find_entity tokens .AMOUNT 5
      let phone_candidates := find_entity tokens .PHONE_NUMBER 5
      let email_candidates := find_entity tokens .EMAIL 5
      let ifsc0 := match ifsc_candidates.head? with
        | some p => pyStrip (strUpper p.1.text)
        | none => ""
      let ifsc1 := if ifsc0 ≠ "" && !(finalIfscCheck ifsc0) then "" else ifsc0
      let pan0 := match pan_candidates.head? with
        | some p => pyStrip (strUpper p.1.text)
        | none => ""
      let pan := if pan0 ≠ "" && !(finalPanCheck pan0) then "" else pan0
      let gst0 := match gst_candidates.head? with
        | some p => pyStrip (strUpper p.1.text)
        | none => ""
      let gst := if gst0 ≠ "" && gst0.length ≠ 15 then "" else gst0
      let accTexts := acc_candidates.map (fun p => pyStrip p.1.text)
      let inv_no := selectInvoiceNo (inv_candidates.map (fun p => pyStrip p.1.text)) accTexts
      let acc_no0 := selectAccountNo inv_no accTexts
      let inv_date := match date_candidates.head? with
        | some p => normalize_date (pyStrip p.1.text)
        | none => ""
      let amount0 := ((amount_candidates.map (fun p => keepDigitsDot (pyStrip p.1.text))).find?
        (fun raw => match parseDecimal? raw with | some v => v.geNat 1 | none => false)).getD ""
      let amount1 :=
        if amount0 = "" then ""
        else if amount0.toList.contains '.' then amount0 else amount0 ++ ".00"
      let amount :=
        if amount1 = "" && !all_tables.isEmpty then (extract_amount_from_tables all_tables).1
        else amount1
      let party_name := (extract_party_name full_text).1
      let phone_no := ((phone_candidates.map (fun p => keepDigits (pyStrip p.1.text))).find?
        (fun c => c.length = 10 && c ≠ acc_no0)).getD ""
      let email := match email_candidates.head? with
        | some p => pyStrip p.1.text
        | none => ""
      let inline := parse_inline_bank_details full_text
      let acc_no := applyInlineField acc_no0 inline.account_no
      let ifsc := applyInlineField ifsc1 inline.ifsc
      let pan_gst := if pan ≠ "" then pan else gst
      let bank_name0 := derive_bank_name ifsc
      let bank_name := applyInlineField bank_name0 inline.bank_name
      let address := extract_address lines
      let record : Record := buildRecord party_name inv_date inv_no amount phone_no email
        address bank_name acc_no ifsc pan_gst
      (some record, validate_extraction record)

/-- Ordered key list of a record. -/
def recordKeys (r : Record) : List String := r.map Prod.fst

/-! ## Concrete documents used by several claims -/

/-- Document carrying one phone line with a glued country code. -/
def phoneDocText : String := "Phone: 919876543210"

/-- The phone document as pipeline input (one page, no tables). -/
def phoneDocPages : Except String (List (Except String PageData)) :=
  Except.ok [Except.ok ⟨some phoneDocText, []⟩]

/-- Document carrying a rupee amount with the trailing dash suffix. -/
def amountDocText : String := "Total ₹ 10,000/-"

/-- The amount document as pipeline input (one page, no tables). -/
def amountDocPages : Except String (List (Except String PageData)) :=
  Except.ok [Except.ok ⟨some amountDocText, []⟩]

/-- Document on which the invoice number and the inline bank fallback commit
the same value: the five spaced account candidates outrank the invoice value
in the account top five yet fail the length filter, and the negative context
on the last line keeps its copy out of the scorer entirely. -/
def collisionDocText : String :=
  "Invoice # 450010110\nAccount: 4500-1011-0017123456\nAccount: 4501-1011-0017123456\nAccount: 4502-1011-0017123456\nAccount: 4503-1011-0017123456\nAccount: 4504-1011-0017123456\nBank Account No: 450010110 page"

/-- The collision document as pipeline input (one page, no tables). -/
def collisionDocPages : Except String (List (Except String PageData)) :=
  Except.ok [Except.ok ⟨some collisionDocText, []⟩]

/-! ## C1: hard format gate and nonnegative clamp of the scorer -/

/-- C1: for every token and entity kind the score is exactly 0 whenever the
token text (tried stripped, as the source does) matches no format pattern of
that kind, regardless of context; and every score is nonnegative. -/
theorem hard_gate_and_clamp :
    ∀ (t : Token) (e : EntityType),
      (formatMatches e (pyStrip t.text) = false → score_token_for_entity t e = 0) ∧
      0 ≤ score_token_for_entity t e := by
  intro t e
  constructor
  · intro h
    simp [score_token_for_entity, h]
  · unfold score_token_for_entity
    split
    · exact le_refl 0
    · split
      · exact le_refl 0
      · split
        · exact le_refl 0
        · exact le_max_right _ 0

/-- Witness for C1 at a concrete token whose text matches no account format,
with a strong account context that still cannot lift the score above 0. -/
theorem hard_gate_and_clamp_witness :
    score_token_for_entity
      ⟨"ABCDE", 0, 0, "account number ABCDE", ["account", "number"], [], none, false⟩
      .ACCOUNT_NUMBER = 0 ∧
    (0 : Int) ≤ score_token_for_entity
      ⟨"ABCDE", 0, 0, "account number ABCDE", ["account", "number"], [], none, false⟩
      .ACCOUNT_NUMBER :=
  ⟨(hard_gate_and_clamp _ _).1 (by decide), (hard_gate_and_clamp _ _).2⟩

/-! ## C9: the bank name resolver -/

/-- C9: derive_bank_name maps the two sample codes as specified, returns the
empty string on empty or short input, and in general returns the table entry
of the uppercased four-character head or that head itself when unmapped. -/
theorem bank_resolver_spec :
    derive_bank_name "BKID0004500" = "Bank of India" ∧
    derive_bank_name "ZZZZ1234567" = "ZZZZ" ∧
    derive_bank_name "" = "" ∧
    (∀ s : String, s.length < 4 → derive_bank_name s = "") ∧
    (∀ s : String, 4 ≤ s.length →
      derive_bank_name s =
        match IFSC_PREFIX_MAP.find? (fun x => x.1 = strUpper (String.mk (s.toList.take 4))) with
        | some p => p.2
        | none => strUpper (String.mk (s.toList.take 4))) := by
  refine ⟨rfl, rfl, rfl, ?_, ?_⟩
  · intro s h
    unfold derive_bank_name
    have : (s = "" || decide (s.length < 4)) = true := by
      simp [h]
    simp [this]
  · intro s h
    have hne : s ≠ "" := by
      intro he
      rw [he] at h
      simp at h
    have hlt : ¬ s.length < 4 := by omega
    unfold derive_bank_name
    simp only [hne, hlt, decide_False, Bool.or_false, if_neg, if_false, decide_eq_true_eq]
    cases hf : IFSC_PREFIX_MAP.find?
        (fun x => x.1 = strUpper (String.mk (s.toList.take 4))) with
    | none => simp [hf, Option.getD]
    | some p => simp [hf, Option.getD]

/-- Witness for C9: short input and a mapped code, through the theorem. -/
theorem bank_resolver_witness :
    derive_bank_name "AB" = "" ∧ derive_bank_name "BKID0004500" = "Bank of India" :=
  ⟨(bank_resolver_spec.2.2.2.1) "AB" (by decide), bank_resolver_spec.1⟩

/-! ## C10: the phone kind requires a positive context keyword -/

lemma hasPhoneContext_false {t : Token}
    (h : ∀ kw ∈ phoneContextWords, kw ∉ allContext t) : hasPhoneContext t = false := by
  unfold hasPhoneContext
  rw [List.any_eq_false]
  intro kw hkw
  intro hc
  exact h kw hkw (List.mem_of_elem_eq_true hc)

lemma phone_score_zero {t : Token}
    (h : ∀ kw ∈ phoneContextWords, kw ∉ allContext t) :
    score_token_for_entity t .PHONE_NUMBER = 0 := by
  unfold score_token_for_entity
  split
  · rfl
  · split
    · rfl
    · rw [if_pos]
      simp [hasPhoneContext_false h]

lemma findEntityAux_phone_empty (toks : List Token)
    (h : ∀ t ∈ toks, ∀ kw ∈ phoneContextWords, kw ∉ allContext t) :
    ∀ seen, findEntityAux .PHONE_NUMBER toks seen = [] := by
  induction toks with
  | nil => intro seen; rfl
  | cons t ts ih =>
    intro seen
    have ht := h t (List.mem_cons_self t ts)
    have hts : ∀ u ∈ ts, ∀ kw ∈ phoneContextWords, kw ∉ allContext u := fun u hu =>
      h u (List.mem_cons_of_mem t hu)
    unfold findEntityAux
    simp [phone_score_zero ht]
    split
    · exact ih hts _
    · exact ih hts _

/-- C10: a token with none of the seven phone keywords in its context scores
0 for the phone kind, and a token list all of whose members lack the keywords
produces no phone candidate at all. -/
theorem phone_requires_positive_context :
    (∀ t : Token, (∀ kw ∈ phoneContextWords, kw ∉ allContext t) →
      score_token_for_entity t .PHONE_NUMBER = 0) ∧
    (∀ toks : List Token, (∀ t ∈ toks, ∀ kw ∈ phoneContextWords, kw ∉ allContext t) →
      find_entity toks .PHONE_NUMBER 5 = []) := by
  constructor
  · intro t h
    exact phone_score_zero h
  · intro toks h
    unfold find_entity
    rw [findEntityAux_phone_empty toks h []]
    rfl

/-- Witness for C10: a format-matching mobile number with no phone keyword
nearby is scored 0 and produces no candidate. -/
theorem phone_requires_positive_context_witness :
    score_token_for_entity
      ⟨"9876543210", 0, 0, "value 9876543210", ["value"], [], none, false⟩
      .PHONE_NUMBER = 0 ∧
    find_entity [⟨"9876543210", 0, 0, "value 9876543210", ["value"], [], none, false⟩]
      .PHONE_NUMBER 5 = [] :=
  ⟨phone_requires_positive_context.1 _ (by decide),
   phone_requires_positive_context.2 _ (by
    intro t ht
    rcases List.mem_singleton.mp ht with rfl
    decide)⟩

/-! ## C3: totality and the absent-record forms of the pipeline -/

/-- C3: the embedded pipeline is a total function (exceptions are explicit
error values); an unexpected failure at the per-document boundary yields the
absent record with the single critical-error warning; a document with no
extractable text yields the absent record with the single no-data warning,
not an empty-but-present record; and every absent-record result carries
exactly one explanatory warning. -/
theorem pipeline_total_and_absent_record_forms :
    (∀ e : String, extract_invoice_data (Except.error e) =
      (none, ["Critical Error: " ++ e])) ∧
    (∀ pages, pyStrip (gatherDoc pages).1 = "" →
      extract_invoice_data (Except.ok pages) =
        (none, ["No text extracted — PDF may be image-based or corrupted"])) ∧
    (∀ inp, (extract_invoice_data inp).1 = none →
      ((extract_invoice_data inp).2).length = 1) := by
  refine ⟨fun e => rfl, ?_, ?_⟩
  · intro pages h
    unfold extract_invoice_data
    simp [h]
  · intro inp h
    match inp with
    | .error e => rfl
    | .ok pages =>
      by_cases hc : pyStrip (gatherDoc pages).1 = ""
      · unfold extract_invoice_data
        simp [hc]
      · exfalso
        unfold extract_invoice_data at h
        simp [hc] at h

/-- Witness for C3: a concrete boundary failure and a concrete empty document. -/
theorem pipeline_boundary_witness :
    extract_invoice_data (Except.error "boom") = (none, ["Critical Error: boom"]) ∧
    extract_invoice_data (Except.ok ([] : List (Except String PageData))) =
      (none, ["No text extracted — PDF may be image-based or corrupted"]) ∧
    ((extract_invoice_data (Except.error "boom")).2).length = 1 :=
  ⟨pipeline_total_and_absent_record_forms.1 "boom",
   pipeline_total_and_absent_record_forms.2.1 [] (by rfl),
   pipeline_total_and_absent_record_forms.2.2 _ (by rfl)⟩

/-! ## C5: the shape of the output record -/

/-- Pipeline output record of the phone document. -/
def phoneDocRecord : Record :=
  [("Party name", "---   ---"), ("Invoice Date", ""), ("Invoice No.", ""), ("Amount", ""),
   ("Phone Number", ""), ("Email", ""), ("Address", ""), ("Bank Name", ""),
   ("Bank Account No", ""), ("IFSC Code", ""), ("PAN Number / GST", "")]

/-- The nine keys the claim asserts. -/
def claimedNineKeys : List String :=
  ["Party name", "Invoice Date", "Invoice No.", "Amount", "Phone Number",
   "Bank Name", "Bank Account No", "IFSC Code", "PAN Number / GST"]

/-- The eleven keys the pipeline actually emits, in source order. -/
def actualElevenKeys : List String :=
  ["Party name", "Invoice Date", "Invoice No.", "Amount", "Phone Number",
   "Email", "Address", "Bank Name", "Bank Account No", "IFSC Code", "PAN Number / GST"]

/-- Counterexample for C5: on a concrete successfully processed document the
record has the eleven keys including Email and Address, not the claimed nine. -/
theorem record_has_eleven_keys :
    recordKeys (((extract_invoice_data phoneDocPages).1).getD []) = actualElevenKeys ∧
    actualElevenKeys ≠ claimedNineKeys :=
  ⟨rfl, by decide⟩

/-- C5 as amended: every record the pipeline emits is a string-to-string pair
list whose key sequence is exactly the eleven fixed keys in source order, and
on the concrete phone document the unfound fields are the empty string. -/
theorem record_key_order :
    (∀ inp rec, (extract_invoice_data inp).1 = some rec → recordKeys rec = actualElevenKeys) ∧
    (extract_invoice_data phoneDocPages).1 = some phoneDocRecord := by
  constructor
  · intro inp rec h
    cases inp with
    | error e => simp [extract_invoice_data] at h
    | ok pages =>
      simp only [extract_invoice_data] at h
      split at h
      · simp at h
      · simp only [Option.some.injEq] at h
        rw [← h]
        rfl
  · rfl

/-- Witness for C5 as amended, at the concrete phone document. -/
theorem record_key_order_witness :
    recordKeys phoneDocRecord = actualElevenKeys :=
  record_key_order.1 phoneDocPages phoneDocRecord (by rfl)

/-! ## C6: the glued country-code phone line -/

/-- Counterexample for C6: the pipeline does not normalize the 12-digit
value to its bare 10-digit subscriber number; the phone field stays empty. -/
theorem phone_country_code_not_normalized :
    containsSub (gatherDoc [Except.ok ⟨some phoneDocText, []⟩]).1 "Phone: 919876543210" = true ∧
    (extract_invoice_data phoneDocPages).1 = some phoneDocRecord ∧
    recGet phoneDocRecord "Phone Number" = "" ∧
    ("" : String) ≠ "9876543210" :=
  ⟨rfl, rfl, rfl, by decide⟩

/-- C6 as amended: on the phone document the 12-digit candidate is produced
by the scorer but rejected by the exact-10-digit selection filter, so the
phone field is empty; the value is never committed as the account number
(here the account field is empty too), and in general any token whose line
context carries the word phone scores 0 for the account kind. -/
theorem phone_twelve_digit_rejected :
    recGet phoneDocRecord "Phone Number" = "" ∧
    recGet phoneDocRecord "Bank Account No" = "" ∧
    (find_entity (tokenize (gatherDoc [Except.ok ⟨some phoneDocText, []⟩]).1 6)
      .PHONE_NUMBER 5).map (fun p => (p.1.text, p.2)) = [("919876543210", 150)] ∧
    (keepDigits (pyStrip "919876543210")).length = 12 ∧
    (∀ t : Token, "phone" ∈ allContext t →
      score_token_for_entity t .ACCOUNT_NUMBER = 0) := by
  refine ⟨rfl, rfl, rfl, rfl, ?_⟩
  intro t hmem
  have hneg : negHit t = true := by
    unfold negHit
    rw [List.any_eq_true]
    exact ⟨"phone", hmem, by decide⟩
  unfold score_token_for_entity
  split
  · rfl
  · simp [hneg]

/-- Witness for C6 as amended, at a concrete token next to the word phone. -/
theorem phone_twelve_digit_rejected_witness :
    score_token_for_entity
      ⟨"9198765432", 7, 0, "phone 9198765432", ["phone"], [], none, false⟩
      .ACCOUNT_NUMBER = 0 :=
  phone_twelve_digit_rejected.2.2.2.2 _ (by decide)

/-! ## C7: the rupee amount with the trailing dash suffix -/

/-- Pipeline output record of the amount document. -/
def amountDocRecord : Record :=
  [("Party name", "---   ---"), ("Invoice Date", ""), ("Invoice No.", "Total"), ("Amount", ""),
   ("Phone Number", ""), ("Email", ""), ("Address", ""), ("Bank Name", ""),
   ("Bank Account No", ""), ("IFSC Code", ""), ("PAN Number / GST", "")]

/-- Counterexample for C7: the document whose text carries the total line
with the rupee sign and the trailing dash suffix binds Amount to the empty
string, not to 10000. -/
theorem amount_suffix_not_stripped :
    containsSub (gatherDoc [Except.ok ⟨some amountDocText, []⟩]).1 "Total ₹ 10,000/-" = true ∧
    recGet (((extract_invoice_data amountDocPages).1).getD []) "Amount" = "" ∧
    ("" : String) ≠ "10000" :=
  ⟨rfl, rfl, by decide⟩

/-- C7 as amended: the same document yields an empty Amount, because the
token carrying the value fails every amount format with its trailing suffix
(without the suffix the same text would pass the format gate) and the
pipeline has no text-level amount fallback and no tables here. -/
theorem amount_empty_for_slash_dash :
    (extract_invoice_data amountDocPages).1 = some amountDocRecord ∧
    recGet amountDocRecord "Amount" = "" ∧
    formatMatches .AMOUNT "10,000/-" = false ∧
    formatMatches .AMOUNT "10,000" = true ∧
    (gatherDoc [Except.ok ⟨some amountDocText, []⟩]).2 = [] :=
  ⟨rfl, rfl, rfl, rfl, rfl⟩

/-! ## C8: the date normalizer -/

/-- Counterexample for C8: a two-digit year above 50 expands to 19YY, not to
the claimed 20YY. -/
theorem two_digit_year_fifty_split :
    normalize_date "28-11-99" = "28-11-1999" ∧ ("28-11-1999" : String) ≠ "28-11-2099" :=
  ⟨rfl, by decide⟩

lemma string_mk_length (l : List Char) : (String.mk l).length = l.length := rfl

lemma zfill2_length {s : String} (h : s.length ≤ 2) : (zfill2 s).length = 2 := by
  unfold zfill2
  split
  · rename_i hlt
    rw [String.length_append, string_mk_length, List.length_replicate]
    omega
  · omega

lemma monthLookup_length (mon : String) : (monthLookup mon).length = 2 := by
  unfold monthLookup
  cases hf : MONTH_MAP.find?
      (fun p => p.1 = String.mk ((strLower mon).toList.take 3)) with
  | none => rfl
  | some p =>
    have hp : p ∈ MONTH_MAP := List.mem_of_find?_eq_some hf
    have hall : ∀ q ∈ MONTH_MAP, q.2.length = 2 := by decide
    simpa using hall p hp

lemma guard_pair {P Q : Prop} [Decidable P] [Decidable Q]
    (h : ¬((!(decide P && decide Q)) = true)) : P ∧ Q := by
  simpa using h

lemma guard_single {P : Prop} [Decidable P] (h : ¬((!decide P) = true)) : P := by
  simpa using h

lemma ndP1_day_le {l : List Char} {d mon y : String}
    (h : ndP1 l = some (d, mon, y)) : d.length ≤ 2 := by
  simp only [ndP1] at h
  split at h
  next => simp at h
  next hg =>
    split at h
    next => simp at h
    next =>
      split at h
      next => simp at h
      next =>
        split at h
        next => simp at h
        next =>
          split at h
          next => simp at h
          next =>
            simp only [Option.some.injEq, Prod.mk.injEq] at h
            obtain ⟨h1, -⟩ := h
            obtain ⟨-, hg2⟩ := guard_pair hg
            rw [← h1, string_mk_length]
            omega

lemma ndP2_shape {l : List Char} {mon d y : String}
    (h : ndP2 l = some (mon, d, y)) : d.length ≤ 2 ∧ y.length = 4 := by
  simp only [ndP2] at h
  split at h
  next => simp at h
  next =>
    split at h
    next => simp at h
    next =>
      split at h
      next => simp at h
      next hd =>
        split at h
        next => simp at h
        next =>
          split at h
          next => simp at h
          next hy =>
            simp only [Option.some.injEq, Prod.mk.injEq] at h
            obtain ⟨-, h2, h3⟩ := h
            obtain ⟨-, hd2⟩ := guard_pair hd
            rw [Nat.not_lt] at hy
            constructor
            · rw [← h2, string_mk_length]
              omega
            · rw [← h3, string_mk_length, List.length_take]
              omega

lemma ndP3_shape {l : List Char} {d m y : String}
    (h : ndP3 l = some (d, m, y)) : d.length ≤ 2 ∧ m.length ≤ 2 := by
  simp only [ndP3] at h
  split at h
  next => simp at h
  next hd1 =>
    split at h
    next c r heq =>
      split at h
      next => simp at h
      next =>
        split at h
        next => simp at h
        next hd2 =>
          split at h
          next c2 r2 heq2 =>
            split at h
            next => simp at h
            next =>
              split at h
              next => simp at h
              next =>
                simp only [Option.some.injEq, Prod.mk.injEq] at h
                obtain ⟨h1, h2, -⟩ := h
                obtain ⟨-, hd1b⟩ := guard_pair hd1
                obtain ⟨-, hd2b⟩ := guard_pair hd2
                constructor
                · rw [← h1, string_mk_length]; omega
                · rw [← h2, string_mk_length]; omega
          next => simp at h
    next => simp at h

lemma ndP4_shape {l : List Char} {y m d : String}
    (h : ndP4 l = some (y, m, d)) : y.length = 4 ∧ m.length ≤ 2 ∧ d.length ≤ 2 := by
  simp only [ndP4] at h
  split at h
  next => simp at h
  next hy =>
    split at h
    next c r heq =>
      split at h
      next => simp at h
      next =>
        split at h
        next => simp at h
        next hm =>
          split at h
          next c2 r2 heq2 =>
            split at h
            next => simp at h
            next =>
              split at h
              next => simp at h
              next hd =>
                simp only [Option.some.injEq, Prod.mk.injEq] at h
                obtain ⟨h1, h2, h3⟩ := h
                have hy4 := guard_single hy
                obtain ⟨-, hm2⟩ := guard_pair hm
                rw [Nat.not_lt] at hd
                refine ⟨?_, ?_, ?_⟩
                · rw [← h1, string_mk_length]; omega
                · rw [← h2, string_mk_length]; omega
                · rw [← h3, string_mk_length, List.length_take]; omega
          next => simp at h
    next => simp at h

/-- C8 as amended: for every input the normalizer recognizes, the output is
the day, month and year joined by dashes with day and month zero-padded to
two characters; a two-digit input year YY expands to 20YY when YY is at most
50 and to 19YY when it is 51 or more (not always 20YY); four-digit years of
the month-name and ISO patterns pass through unchanged. -/
theorem date_canonical_form :
    (∀ y : String, y.length = 2 →
      expandYear y = (if digitsToNat y ≤ 50 then "20" ++ y else "19" ++ y)) ∧
    (∀ (s : String) (d mon y : String), s ≠ "" → ndP1 (pyStrip s).toList = some (d, mon, y) →
      normalize_date s = zfill2 d ++ "-" ++ monthLookup mon ++ "-" ++ expandYear y ∧
      (zfill2 d).length = 2 ∧ (monthLookup mon).length = 2) ∧
    (∀ (s : String) (mon d y : String), s ≠ "" → ndP1 (pyStrip s).toList = none →
      ndP2 (pyStrip s).toList = some (mon, d, y) →
      normalize_date s = zfill2 d ++ "-" ++ monthLookup mon ++ "-" ++ y ∧
      (zfill2 d).length = 2 ∧ (monthLookup mon).length = 2 ∧ y.length = 4) ∧
    (∀ (s : String) (d m y : String), s ≠ "" → ndP1 (pyStrip s).toList = none →
      ndP2 (pyStrip s).toList = none → ndP3 (pyStrip s).toList = some (d, m, y) →
      normalize_date s = zfill2 d ++ "-" ++ zfill2 m ++ "-" ++ expandYear y ∧
      (zfill2 d).length = 2 ∧ (zfill2 m).length = 2) ∧
    (∀ (s : String) (y m d : String), s ≠ "" → ndP1 (pyStrip s).toList = none →
      ndP2 (pyStrip s).toList = none → ndP3 (pyStrip s).toList = none →
      ndP4 (pyStrip s).toList = some (y, m, d) →
      normalize_date s = zfill2 d ++ "-" ++ zfill2 m ++ "-" ++ y ∧
      (zfill2 d).length = 2 ∧ (zfill2 m).length = 2 ∧ y.length = 4) := by
  refine ⟨?_, ?_, ?_, ?_, ?_⟩
  · intro y h
    unfold expandYear
    rw [if_pos h]
  · intro s d mon y hs h
    refine ⟨?_, zfill2_length (ndP1_day_le h), monthLookup_length mon⟩
    unfold normalize_date
    rw [if_neg hs]
    simp only [h]
  · intro s mon d y hs h1 h2
    obtain ⟨hd, hy⟩ := ndP2_shape h2
    refine ⟨?_, zfill2_length hd, monthLookup_length mon, hy⟩
    unfold normalize_date
    rw [if_neg hs]
    simp only [h1, h2]
  · intro s d m y hs h1 h2 h3
    obtain ⟨hd, hm⟩ := ndP3_shape h3
    refine ⟨?_, zfill2_length hd, zfill2_length hm⟩
    unfold normalize_date
    rw [if_neg hs]
    simp only [h1, h2, h3]
  · intro s y m d hs h1 h2 h3 h4
    obtain ⟨hy, hm, hd⟩ := ndP4_shape h4
    refine ⟨?_, zfill2_length hd, zfill2_length hm, hy⟩
    unfold normalize_date
    rw [if_neg hs]
    simp only [h1, h2, h3, h4]

/-- Witness for C8 as amended at three concrete recognized dates and the
two-digit year 99. -/
theorem date_canonical_form_witness :
    expandYear "99" = (if digitsToNat "99" ≤ 50 then "20" ++ "99" else "19" ++ "99") ∧
    (normalize_date "28-Nov-25" =
      zfill2 "28" ++ "-" ++ monthLookup "Nov" ++ "-" ++ expandYear "25" ∧
      (zfill2 "28").length = 2 ∧ (monthLookup "Nov").length = 2) ∧
    (normalize_date "28-11-99" =
      zfill2 "28" ++ "-" ++ zfill2 "11" ++ "-" ++ expandYear "99" ∧
      (zfill2 "28").length = 2 ∧ (zfill2 "11").length = 2) :=
  ⟨date_canonical_form.1 "99" (by decide),
   date_canonical_form.2.1 "28-Nov-25" "28" "Nov" "25" (by decide) (by rfl),
   date_canonical_form.2.2.2.1 "28-11-99" "28" "11" "99" (by decide) (by rfl) (by rfl) (by rfl)⟩

/-! ## C2: invoice and account number exclusion -/

/-- Pipeline output record of the collision document. -/
def collisionDocRecord : Record :=
  [("Party name", "---   ---"), ("Invoice Date", ""), ("Invoice No.", "450010110"),
   ("Amount", "450010110.00"), ("Phone Number", ""), ("Email", ""), ("Address", ""),
   ("Bank Name", ""), ("Bank Account No", "450010110"), ("IFSC Code", ""),
   ("PAN Number / GST", "")]

/-- The collision record with a different, non-colliding account number. -/
def collisionDocRecordAlt : Record :=
  [("Party name", "---   ---"), ("Invoice Date", ""), ("Invoice No.", "450010110"),
   ("Amount", "450010110.00"), ("Phone Number", ""), ("Email", ""), ("Address", ""),
   ("Bank Name", ""), ("Bank Account No", "999988887777"), ("IFSC Code", ""),
   ("PAN Number / GST", "")]

/-- Counterexample for C2: on the collision document the pipeline commits the
very value of Invoice No. to Bank Account No through the inline fallback, and
the emitted warning list contains no warning noting the collision — the
validator output is identical for a record with a different account number. -/
theorem invoice_account_collision_unflagged :
    (extract_invoice_data collisionDocPages).1 = some collisionDocRecord ∧
    recGet collisionDocRecord "Invoice No." = "450010110" ∧
    recGet collisionDocRecord "Bank Account No" = "450010110" ∧
    (extract_invoice_data collisionDocPages).2 =
      ["⚠️ CRITICAL: Invoice date not detected",
       "Account Number found but no IFSC Code detected",
       "PAN/GST not detected",
       "Amount 450010110.0 is very large — please verify"] ∧
    validate_extraction collisionDocRecord = validate_extraction collisionDocRecordAlt :=
  ⟨rfl, rfl, rfl, rfl, rfl⟩

/-- C2 as amended: the scored account walk never commits the committed
invoice value (whenever it commits at all); only the inline bank fallback can
commit an equal value, and only when the walk committed nothing; and in that
collision case the validator emits no warning noting the collision — its
output does not depend on whether the account number equals the invoice
number, as the concrete collision document shows. -/
theorem account_exclusion_and_inline_collision :
    (∀ (inv : String) (accTexts : List String),
      selectAccountNo inv accTexts ≠ "" → selectAccountNo inv accTexts ≠ inv) ∧
    (∀ (v : String) (inline : Option String), v ≠ "" → applyInlineField v inline = v) ∧
    validate_extraction collisionDocRecord = validate_extraction collisionDocRecordAlt := by
  refine ⟨?_, ?_, rfl⟩
  · intro inv accTexts hne
    unfold selectAccountNo at hne ⊢
    cases hf : accTexts.find? (fun c => c ≠ inv && 9 ≤ c.length && c.length ≤ 18) with
    | none =>
      rw [hf] at hne
      simp at hne
    | some a =>
      have hp := List.find?_some hf
      simp only [Bool.and_eq_true, decide_eq_true_eq] at hp
      simpa [Option.getD] using hp.1.1
  · intro v inline hv
    unfold applyInlineField
    rw [if_neg hv]

/-- Witness for C2 as amended at concrete candidate lists. -/
theorem account_exclusion_witness :
    selectAccountNo "450010110017" ["450010110017", "123456789"] ≠ "450010110017" ∧
    applyInlineField "123456789" (some "450010110017") = "123456789" :=
  ⟨account_exclusion_and_inline_collision.1 _ _ (by decide),
   account_exclusion_and_inline_collision.2.1 _ _ (by decide)⟩

/-! ## C4: phone and account disambiguation

Character-level facts bridging the ASCII class functions, then refutations of
the other format gates on an Indian-mobile-shaped string, then bounds on the
keyword and penalty sums of the scorer. -/

/-- Indian-mobile shape of the claim: ten digits, the first between 6 and 9
(this is exactly the first phone format pattern of the registry). -/
def isIndianMobile (s : String) : Bool := phoneFmt1 s.toList

lemma char_le_nat {a b : Char} (h : a ≤ b) : a.val.toBitVec.toNat ≤ b.val.toBitVec.toNat := by
  rw [Char.le_def, UInt32.le_def, BitVec.le_def] at h
  exact h

lemma nat_le_char {a b : Char} (h : a.val.toBitVec.toNat ≤ b.val.toBitVec.toNat) : a ≤ b := by
  rw [Char.le_def, UInt32.le_def, BitVec.le_def]
  exact h

lemma char_between69_isDigit {c : Char} (h6 : '6' ≤ c) (h9 : c ≤ '9') : c.isDigit = true := by
  have n6 := char_le_nat h6
  have n9 := char_le_nat h9
  simp only [Char.isDigit, ge_iff_le, Bool.and_eq_true, decide_eq_true_eq]
  exact ⟨nat_le_char (a := '0') (le_trans (by decide) n6), nat_le_char (b := '9') n9⟩

lemma digit_le9 {c : Char} (h : c.isDigit = true) : c ≤ '9' := by
  simp only [Char.isDigit, ge_iff_le, Bool.and_eq_true, decide_eq_true_eq] at h
  exact h.2

lemma char_isUpper_false {c : Char} (h9 : c ≤ '9') : c.isUpper = false := by
  have n9 := char_le_nat h9
  have e9 : ('9').val.toBitVec.toNat = 57 := rfl
  rw [e9] at n9
  simp only [Char.isUpper, ge_iff_le, Bool.and_eq_false_iff, decide_eq_false_iff_not]
  left
  intro hc
  rw [UInt32.le_def, BitVec.le_def] at hc
  have e65 : ((65 : UInt32)).toBitVec.toNat = 65 := rfl
  rw [e65] at hc
  omega

lemma char_isLower_false {c : Char} (h9 : c ≤ '9') : c.isLower = false := by
  have n9 := char_le_nat h9
  have e9 : ('9').val.toBitVec.toNat = 57 := rfl
  rw [e9] at n9
  simp only [Char.isLower, ge_iff_le, Bool.and_eq_false_iff, decide_eq_false_iff_not]
  left
  intro hc
  rw [UInt32.le_def, BitVec.le_def] at hc
  have e97 : ((97 : UInt32)).toBitVec.toNat = 97 := rfl
  rw [e97] at hc
  omega

lemma char_isAlpha_false_of_le9 {c : Char} (h9 : c ≤ '9') : c.isAlpha = false := by
  simp [Char.isAlpha, char_isUpper_false h9, char_isLower_false h9]

lemma digit_isAlpha_false {c : Char} (h : c.isDigit = true) : c.isAlpha = false :=
  char_isAlpha_false_of_le9 (digit_le9 h)

lemma digit_ne_of_not_digit {c d : Char} (h : c.isDigit = true) (hd : d.isDigit = false) :
    c ≠ d := by
  intro he
  rw [he, hd] at h
  cases h

lemma digit_toLower_self {c : Char} (h : c.isDigit = true) : c.toLower = c := by
  have h9 := char_le_nat (digit_le9 h)
  have e9 : ('9').val.toBitVec.toNat = 57 := rfl
  rw [e9] at h9
  unfold Char.toLower
  rw [if_neg]
  intro hc
  have hv : Char.toNat c = c.val.toBitVec.toNat := rfl
  rw [hv] at hc
  omega

lemma phoneFmt1_shape {l : List Char} (h : phoneFmt1 l = true) :
    ∃ c rest, l = c :: rest ∧ '6' ≤ c ∧ c ≤ '9' ∧ allDigits rest = true ∧ rest.length = 9 := by
  cases l with
  | nil => simp [phoneFmt1] at h
  | cons c rest =>
    simp only [phoneFmt1, Bool.and_eq_true, decide_eq_true_eq] at h
    exact ⟨c, rest, rfl, h.1.1.1, h.1.1.2, h.1.2, h.2⟩

lemma takeWhile_digits_all {l : List Char} (h : allDigits l = true) :
    l.takeWhile Char.isDigit = l := by
  induction l with
  | nil => rfl
  | cons c cs ih =>
    simp only [allDigits, List.all_cons, Bool.and_eq_true] at h
    simp [List.takeWhile_cons, h.1, ih h.2]

lemma splitChar_no_sep {sep : Char} {l acc : List Char} (h : ∀ c ∈ l, c ≠ sep) :
    splitCharList sep l acc = [acc.reverse ++ l] := by
  induction l generalizing acc with
  | nil => simp [splitCharList]
  | cons c cs ih =>
    have hc : c ≠ sep := h c (by simp)
    simp [splitCharList, hc, ih (fun d hd => h d (by simp [hd]))]


lemma isPrefixOf_cons_false {a b : Char} {as bs : List Char} (h : (a == b) = false) :
    List.isPrefixOf (a :: as) (b :: bs) = false := by
  simp [List.isPrefixOf, h]

lemma month_prefix_false {c : Char} {rest : List Char} (hcd : c.isDigit = true) :
    (monthAbbrevs.any fun m => m.isPrefixOf (c :: rest)) = false := by
  have habbrev : monthAbbrevs =
      [['j','a','n'],['f','e','b'],['m','a','r'],['a','p','r'],['m','a','y'],['j','u','n'],
       ['j','u','l'],['a','u','g'],['s','e','p'],['o','c','t'],['n','o','v'],['d','e','c']] := rfl
  rw [habbrev, List.any_eq_false]
  intro m hm
  fin_cases hm <;>
    { rw [Bool.not_eq_true]
      apply isPrefixOf_cons_false
      rw [beq_eq_false_iff_ne]
      exact (digit_ne_of_not_digit hcd (by decide)).symm }

lemma dateFmt4_mobile {c : Char} {rest : List Char} (hcd : c.isDigit = true) :
    dateFmt4 (c :: rest) = false := by
  have hm : ((c :: rest).map Char.toLower) = c :: rest.map Char.toLower := by
    simp [digit_toLower_self hcd]
  simp only [dateFmt4, hm]
  rw [if_pos (by simp [month_prefix_false hcd])]

lemma dateFmt1_len10 {l : List Char} (htw : l.takeWhile Char.isDigit = l)
    (hlen : l.length = 10) : dateFmt1 l = false := by
  simp [dateFmt1, htw, hlen]

lemma dateFmt2_len10 {l : List Char} (htw : l.takeWhile Char.isDigit = l)
    (hlen : l.length = 10) : dateFmt2 l = false := by
  simp [dateFmt2, htw, hlen]

lemma dateFmt3_len10 {l : List Char} (htw : l.takeWhile Char.isDigit = l)
    (hlen : l.length = 10) : dateFmt3 l = false := by
  simp [dateFmt3, htw, hlen]

lemma dateFmt5_len10 {l : List Char} (htw : l.takeWhile Char.isDigit = l)
    (hlen : l.length = 10) : dateFmt5 l = false := by
  simp [dateFmt5, htw, hlen]

lemma emailFmt_mobile {l : List Char} (hall : allDigits l = true) : emailFmt l = false := by
  have hno : ∀ ch ∈ l, ch ≠ '@' := by
    intro ch hch
    have hd : ch.isDigit = true := List.all_eq_true.mp hall ch hch
    exact digit_ne_of_not_digit hd (by decide)
  simp [emailFmt, splitChar_no_sep hno]

lemma mobile_formats {s : String} (hm : phoneFmt1 s.toList = true) :
    formatMatches .ACCOUNT_NUMBER s = true ∧ formatMatches .PHONE_NUMBER s = true ∧
    formatMatches .IFSC s = false ∧ formatMatches .PAN s = false ∧
    formatMatches .GST s = false ∧ formatMatches .DATE s = false ∧
    formatMatches .EMAIL s = false ∧ formatMatches .PINCODE s = false := by
  obtain ⟨c, rest, hl, h6, h9, hrd, hr9⟩ := phoneFmt1_shape hm
  have hcd : c.isDigit = true := char_between69_isDigit h6 h9
  have hallc : allDigits (c :: rest) = true := by
    simp only [allDigits, List.all_cons, hcd, Bool.true_and]
    exact hrd
  have hlenc : (c :: rest).length = 10 := by simp [hr9]
  have htwc : (c :: rest).takeWhile Char.isDigit = c :: rest := takeWhile_digits_all hallc
  have hmc : phoneFmt1 (c :: rest) = true := by rw [← hl]; exact hm
  refine ⟨?_, ?_, ?_, ?_, ?_, ?_, ?_, ?_⟩
  · simp only [formatMatches]
    rw [hl]
    simp [accFmt1, hallc, hr9]
  · simp only [formatMatches]
    rw [hl]
    simp [hmc]
  · simp only [formatMatches]
    rw [hl]
    simp [ifscFmt1, ifscFmt2, hr9]
  · simp only [formatMatches]
    rw [hl]
    simp [panFmt1, panFmt2, allAlpha, digit_isAlpha_false hcd]
  · simp only [formatMatches]
    rw [hl]
    simp [gstFmt1, gstFmt2, hr9]
  · simp only [formatMatches]
    rw [hl]
    simp [dateFmt1_len10 htwc hlenc, dateFmt2_len10 htwc hlenc,
      dateFmt3_len10 htwc hlenc, dateFmt4_mobile hcd, dateFmt5_len10 htwc hlenc]
  · simp only [formatMatches]
    rw [hl]
    simp [emailFmt_mobile hallc]
  · simp only [formatMatches]
    rw [hl]
    simp [pincodeFmt, hr9]

lemma entityPenalty_nonneg (t : Token) (e : EntityType) : 0 ≤ entityPenalty t e := by
  simp only [entityPenalty]
  split
  · split
    · norm_num
    · split <;> norm_num
  · norm_num

lemma entityPenalty_le (t : Token) (e : EntityType) : entityPenalty t e ≤ 50 := by
  simp only [entityPenalty]
  split
  · split
    · norm_num
    · split <;> norm_num
  · norm_num

lemma entityPenalty_of_fmt_false {t : Token} {e : EntityType}
    (h : formatMatches e (pyStrip t.text) = false) : entityPenalty t e = 0 := by
  simp [entityPenalty, h]

lemma entityPenalty_of_ctx {t : Token} {e : EntityType}
    (h : otherContextScore t e = 0) : entityPenalty t e = 0 := by
  simp only [entityPenalty, h]
  split
  · norm_num
  · rfl

lemma otherContextScore_zero {t : Token} {e : EntityType}
    (h : ∀ p ∈ contextKeywords e, p.1 ∉ allContext t) : otherContextScore t e = 0 := by
  unfold otherContextScore
  apply List.sum_eq_zero
  intro x hx
  obtain ⟨p, hp, rfl⟩ := List.mem_map.mp hx
  rw [if_neg]
  intro hc
  exact h p hp (List.mem_of_elem_eq_true hc)

lemma kwContribution_nonneg (t : Token) (p : String × Int) (hw : 0 ≤ p.2) :
    0 ≤ kwContribution t p := by
  unfold kwContribution
  split
  · have h1 : (0:Int) ≤ if prevLastLower t = some p.1 then 16 else 0 := by split <;> norm_num
    have h2 : (0:Int) ≤ if nextHeadLower t = some p.1 then 16 else 0 := by split <;> norm_num
    omega
  · split
    · exact hw
    · norm_num

lemma positionBonus_nonneg (t : Token) : 0 ≤ positionBonus t := by
  unfold positionBonus
  split
  · norm_num
  · split
    · split <;> norm_num
    · norm_num

lemma crossPenalty_account (t : Token) :
    crossPenalty t .ACCOUNT_NUMBER =
      entityPenalty t .IFSC + entityPenalty t .PAN + entityPenalty t .GST +
      entityPenalty t .INVOICE_NUMBER + entityPenalty t .AMOUNT + entityPenalty t .DATE +
      entityPenalty t .PHONE_NUMBER + entityPenalty t .EMAIL + entityPenalty t .PINCODE := by
  simp [crossPenalty, entityList, List.filter_cons, List.sum_cons]
  omega

lemma crossPenalty_phone (t : Token) :
    crossPenalty t .PHONE_NUMBER =
      entityPenalty t .IFSC + entityPenalty t .PAN + entityPenalty t .GST +
      entityPenalty t .ACCOUNT_NUMBER + entityPenalty t .INVOICE_NUMBER +
      entityPenalty t .AMOUNT + entityPenalty t .DATE +
      entityPenalty t .EMAIL + entityPenalty t .PINCODE := by
  simp [crossPenalty, entityList, List.filter_cons, List.sum_cons]
  omega

lemma negHit_false {t : Token} (h : ∀ w ∈ allContext t, w ∉ NEGATIVE_CONTEXT) :
    negHit t = false := by
  unfold negHit
  rw [List.any_eq_false]
  intro w hw
  intro hc
  exact h w hw (List.mem_of_elem_eq_true hc)

lemma negHit_true {t : Token} {w : String} (hw : w ∈ allContext t)
    (hn : w ∈ NEGATIVE_CONTEXT) : negHit t = true := by
  unfold negHit
  rw [List.any_eq_true]
  exact ⟨w, hw, List.elem_eq_true_of_mem hn⟩


lemma keywordScore_nonneg (t : Token) (e : EntityType)
    (hnn : ∀ q ∈ contextKeywords e, 0 ≤ q.2) : 0 ≤ keywordScore t e := by
  unfold keywordScore
  apply List.sum_nonneg
  intro x hx
  obtain ⟨q, hq, rfl⟩ := List.mem_map.mp hx
  exact kwContribution_nonneg _ _ (hnn q hq)

lemma boldBonus_account (t : Token) : boldBonus t .ACCOUNT_NUMBER = 0 := by
  simp [boldBonus]

lemma boldBonus_phone (t : Token) : boldBonus t .PHONE_NUMBER = 0 := by
  simp [boldBonus]

/-- A mobile-shaped token adjacent to "account" whose line carries the page
banner words "page" and "of". -/
def c4Token : Token :=
  ⟨"9876543210", 8, 0, "account 9876543210 page 1 of 1",
   ["account"], ["page", "1", "of", "1"], none, false⟩

/-- Witness token for the first direction: pure account context. -/
def c4TokenA : Token :=
  ⟨"9876543210", 8, 0, "account number 9876543210", ["account"], [], none, false⟩

/-- Witness token for the second direction: pure mobile context. -/
def c4TokenB : Token :=
  ⟨"9876543210", 8, 0, "mobile 9876543210", ["mobile"], [], none, false⟩

/-- C4 counterexample: the first direction of the claim fails as stated.  The
token is a mobile-shaped ten-digit number directly preceded by "account", and
no phone-related keyword occurs anywhere in its context, yet its account score
is 0 rather than strictly positive: the words "page" and "of" of its line sit
in NEGATIVE_CONTEXT, and the negative-context kill switch zeroes every
non-phone entity, account included. -/
theorem negative_context_breaks_account_positivity :
    isIndianMobile (pyStrip c4Token.text) = true ∧
    prevLastLower c4Token = some "account" ∧
    (phoneContextWords.all (fun kw => !((allContext c4Token).contains kw))) = true ∧
    score_token_for_entity c4Token .PHONE_NUMBER = 0 ∧
    score_token_for_entity c4Token .ACCOUNT_NUMBER = 0 :=
  ⟨rfl, rfl, rfl, rfl, rfl⟩

/-- C4 as amended: for a mobile-shaped token (ten digits led by 6 to 9), if no
word of NEGATIVE_CONTEXT occurs in the context (in particular no phone keyword)
then the phone kind scores 0 and the account kind is strictly positive, with or
without adjacency to "account"; conversely with "mobile" or "contact" in the
context and no account keyword, the account kind scores 0 and the phone kind is
strictly positive. -/
theorem phone_account_disambiguation (t : Token)
    (hm : isIndianMobile (pyStrip t.text) = true) :
    ((∀ w ∈ allContext t, w ∉ NEGATIVE_CONTEXT) →
     score_token_for_entity t .PHONE_NUMBER = 0 ∧
     0 < score_token_for_entity t .ACCOUNT_NUMBER) ∧
    (("mobile" ∈ allContext t ∨ "contact" ∈ allContext t) →
     (∀ p ∈ contextKeywords .ACCOUNT_NUMBER, p.1 ∉ allContext t) →
     score_token_for_entity t .ACCOUNT_NUMBER = 0 ∧
     0 < score_token_for_entity t .PHONE_NUMBER) := by
  obtain ⟨hacc, hph, hifsc, hpan, hgst, hdate, hemail, hpin⟩ := mobile_formats hm
  constructor
  · intro hneg
    constructor
    · apply phone_score_zero
      intro kw hkw hctxm
      have hkn : kw ∈ NEGATIVE_CONTEXT := by fin_cases hkw <;> decide
      exact hneg kw hctxm hkn
    · have hne : negHit t = false := negHit_false hneg
      have hkw0 : 0 ≤ keywordScore t .ACCOUNT_NUMBER :=
        keywordScore_nonneg t _ (by decide)
      have hoph : otherContextScore t .PHONE_NUMBER = 0 := by
        apply otherContextScore_zero
        intro p hp hpm
        have hpn : p.1 ∈ NEGATIVE_CONTEXT := by fin_cases hp <;> decide
        exact hneg p.1 hpm hpn
      have hcr : crossPenalty t .ACCOUNT_NUMBER ≤ 100 := by
        rw [crossPenalty_account, entityPenalty_of_fmt_false hifsc,
          entityPenalty_of_fmt_false hpan, entityPenalty_of_fmt_false hgst,
          entityPenalty_of_fmt_false hdate, entityPenalty_of_fmt_false hemail,
          entityPenalty_of_fmt_false hpin, entityPenalty_of_ctx hoph]
        have h1 := entityPenalty_le t .INVOICE_NUMBER
        have h2 := entityPenalty_le t .AMOUNT
        omega
      have hpos := positionBonus_nonneg t
      simp only [score_token_for_entity, hacc, hne, Bool.not_true, Bool.and_false,
        Bool.false_eq_true, if_false, boldBonus_account]
      apply lt_max_iff.mpr
      left
      have hpr : priorityOf EntityType.ACCOUNT_NUMBER = 7 := rfl
      rw [hpr]
      omega
  · intro hctx hnoacc
    have hnegt : negHit t = true := by
      rcases hctx with hw | hw
      · exact negHit_true hw (by decide)
      · exact negHit_true hw (by decide)
    have hpc : hasPhoneContext t = true := by
      unfold hasPhoneContext
      rw [List.any_eq_true]
      rcases hctx with hw | hw
      · exact ⟨"mobile", by decide, List.elem_eq_true_of_mem hw⟩
      · exact ⟨"contact", by decide, List.elem_eq_true_of_mem hw⟩
    constructor
    · simp [score_token_for_entity, hacc, hnegt]
    · have hkw0 : 0 ≤ keywordScore t .PHONE_NUMBER :=
        keywordScore_nonneg t _ (by decide)
      have hoacc : otherContextScore t .ACCOUNT_NUMBER = 0 :=
        otherContextScore_zero hnoacc
      have hcr : crossPenalty t .PHONE_NUMBER ≤ 100 := by
        rw [crossPenalty_phone, entityPenalty_of_fmt_false hifsc,
          entityPenalty_of_fmt_false hpan, entityPenalty_of_fmt_false hgst,
          entityPenalty_of_fmt_false hdate, entityPenalty_of_fmt_false hemail,
          entityPenalty_of_fmt_false hpin, entityPenalty_of_ctx hoacc]
        have h1 := entityPenalty_le t .INVOICE_NUMBER
        have h2 := entityPenalty_le t .AMOUNT
        omega
      have hpos := positionBonus_nonneg t
      simp only [score_token_for_entity, hph, hpc, bne_self_eq_false, beq_self_eq_true,
        Bool.false_and, Bool.true_and, Bool.not_true, Bool.and_false, Bool.false_eq_true,
        if_false, boldBonus_phone]
      apply lt_max_iff.mpr
      left
      have hpr : priorityOf EntityType.PHONE_NUMBER = 5 := rfl
      rw [hpr]
      omega


/-- Witness for C4 as amended at two concrete tokens, one per direction. -/
theorem phone_account_disambiguation_witness :
    score_token_for_entity c4TokenA .PHONE_NUMBER = 0 ∧
    0 < score_token_for_entity c4TokenA .ACCOUNT_NUMBER ∧
    score_token_for_entity c4TokenB .ACCOUNT_NUMBER = 0 ∧
    0 < score_token_for_entity c4TokenB .PHONE_NUMBER := by
  have h1 := (phone_account_disambiguation c4TokenA rfl).1 (by decide)
  have h2 := (phone_account_disambiguation c4TokenB rfl).2 (Or.inl (by decide)) (by decide)
  exact ⟨h1.1, h1.2, h2.1, h2.2⟩

end InvoiceApp
